import Mathlib

/-!
# DNSVet — verification of the Domain Security Assessment Engine

Shallow embedding of the DNSVet email-security scanner (TypeScript) in Lean 4.
Pure record-parsing functions are translated directly; DNS/HTTP/subprocess
effects are modelled by passing each check's settled outcome
(`Except String α`, the error being the rejection message) into the
orchestrator, mirroring `Promise.allSettled`.

JavaScript strings are modelled as `List Char` (code points); the JS string
operations used by the scanner (`toLowerCase`, `trim`, `split`, `startsWith`,
`endsWith`, one-shot `replace(/\.$/,'')`, and the handful of concrete regexes)
are implemented as structurally recursive scanners so that every definition
evaluates by `decide`/`rfl`.  `toLowerCase` is modelled on the ASCII range,
which covers every string the scanner manipulates.
-/

namespace DNSVet

/-- ASCII lower-casing of one character (model of JS `toLowerCase` per char). -/
def lowerChar (c : Char) : Char :=
  if 65 ≤ c.toNat ∧ c.toNat ≤ 90 then Char.ofNat (c.toNat + 32) else c

/-- Model of JS `String.prototype.toLowerCase` on code-point lists. -/
def toLowerL (l : List Char) : List Char := l.map lowerChar

/-- Whitespace class used by JS `trim` and the regex class `\s`
(space, tab, LF, CR cover every string the scanner sees). -/
def isWsChar (c : Char) : Bool :=
  c.toNat == 32 || c.toNat == 9 || c.toNat == 10 || c.toNat == 13

/-- Model of JS `String.prototype.trim`. -/
def trimL (l : List Char) : List Char :=
  ((l.dropWhile isWsChar).reverse.dropWhile isWsChar).reverse

/-- Boolean list-prefix test (model of JS `startsWith` on code points). -/
def isPre : List Char → List Char → Bool
  | [], _ => true
  | _ :: _, [] => false
  | p :: ps, c :: cs => p == c && isPre ps cs

/-- Model of JS `String.prototype.endsWith`. -/
def endsL (p l : List Char) : Bool := isPre p.reverse l.reverse

/-- Model of JS one-shot `replace(/\.$/, '')`: strip a single trailing dot. -/
def stripDotL (l : List Char) : List Char :=
  match l.getLast? with
  | some '.' => l.dropLast
  | _ => l

/-- Model of JS `String.prototype.split` with a one-character separator. -/
def splitOnL (sep : Char) : List Char → List (List Char)
  | [] => [[]]
  | c :: t =>
    if c == sep then [] :: splitOnL sep t
    else
      match splitOnL sep t with
      | [] => [[c]]
      | h :: r => (c :: h) :: r

/-- The code points of a string literal. -/
def strL (s : String) : List Char := s.data

/-- Case-insensitive prefix test: `pat` (given lower-case) against `l`
(model of a case-fixed literal regex fragment under the `i` flag). -/
def isPreCI (pat l : List Char) : Bool := isPre pat (toLowerL l)

/-- Case-insensitively strip the (lower-case) pattern `pat` from the front of
`l`, returning the remainder of `l` on success. -/
def stripPreCI : List Char → List Char → Option (List Char)
  | [], l => some l
  | _ :: _, [] => none
  | p :: ps, c :: cs => if lowerChar c == p then stripPreCI ps cs else none

/-- Non-overlapping occurrence count, skipping `skip` chars first.
Model of `str.match(/pat/g)?.length` for a literal pattern. -/
def countOccurGo (pat : List Char) : List Char → Nat → Nat
  | [], _ => 0
  | _ :: t, skip + 1 => countOccurGo pat t skip
  | c :: t, 0 =>
    if isPre pat (c :: t) then 1 + countOccurGo pat t (pat.length - 1)
    else countOccurGo pat t 0

/-- Number of non-overlapping occurrences of the literal pattern `pat` in `l`
(JS `match` with the `g` flag; patterns here are already lower-case and are
matched against a lower-cased subject). -/
def countOccur (pat l : List Char) : Nat := countOccurGo pat l 0

/-- After case-insensitively matching `tok`, the regex tail `(\s|$)`:
`tok` followed by whitespace or the end of the string. -/
def tokThenWsOrEnd (tok l : List Char) : Bool :=
  match stripPreCI tok l with
  | some [] => true
  | some (c :: _) => isWsChar c
  | none => false

/-- Scan for `\s tok (\s|$)` anywhere in `l` (case-insensitive). -/
def bareAfterWs (tok : List Char) : List Char → Bool
  | [] => false
  | c :: t => (isWsChar c && tokThenWsOrEnd tok t) || bareAfterWs tok t

/-- Model of `/\s tok \s|^ tok \s|\s tok $/i.test(record)` — the "implicit
mechanism" regexes of the SPF checker with `tok` standing for `a` or `mx`.
Note the alternation has no `^tok$` branch. -/
def hasBareTok (tok l : List Char) : Bool :=
  (match stripPreCI tok l with
   | some (c :: _) => isWsChar c
   | _ => false)
  || bareAfterWs tok l

/-- Decimal digit test (regex `\d`). -/
def isDigitChar (c : Char) : Bool := 48 ≤ c.toNat && c.toNat ≤ 57

/-- Decimal value of a digit string (model of `parseInt(·, 10)` on an
all-digit capture). -/
def digitsToNat (l : List Char) : Nat :=
  l.foldl (fun acc c => acc * 10 + (c.toNat - 48)) 0

/-! ## Data model (src/types.ts and the per-check result interfaces) -/

/-- `Severity` from types.ts. -/
inductive Severity
  | critical
  | high
  | medium
  | low
  | info
deriving DecidableEq, Repr

/-- `Issue` from types.ts (`recommendation` is optional). -/
structure Issue where
  severity : Severity
  message : String
  recommendation : Option String := none
deriving DecidableEq, Repr

/-- `Grade` from types.ts. -/
inductive Grade
  | A
  | B
  | C
  | D
  | F
deriving DecidableEq, Repr

/-- `SPFResult` from types.ts; `skipped` is the optional flag set only by the
orchestrator's disabled-check placeholder. -/
structure SPFResult where
  found : Bool
  record : Option String := none
  mechanism : Option String := none
  lookupCount : Option Nat := none
  includes : Option (List String) := none
  issues : List Issue
  skipped : Bool := false
deriving DecidableEq, Repr

/-- `DKIMSelector` from types.ts. -/
structure DKIMSelector where
  selector : String
  found : Bool
  keyType : Option String := none
  keyLength : Option Nat := none
  record : Option String := none
deriving DecidableEq, Repr

/-- `DKIMResult` from types.ts. -/
structure DKIMResult where
  found : Bool
  selectors : List DKIMSelector
  issues : List Issue
  skipped : Bool := false
deriving DecidableEq, Repr

/-- The `'none' | 'quarantine' | 'reject'` policy values of a DMARC record. -/
inductive DMARCPolicy
  | none
  | quarantine
  | reject
deriving DecidableEq, Repr

/-- `DMARCResult` from types.ts. -/
structure DMARCResult where
  found : Bool
  record : Option String := none
  policy : Option DMARCPolicy := none
  subdomainPolicy : Option DMARCPolicy := none
  reportingEnabled : Option Bool := none
  rua : Option (List String) := none
  ruf : Option (List String) := none
  pct : Option Nat := none
  issues : List Issue
  skipped : Bool := false
deriving DecidableEq, Repr

/-- `MXRecord` from types.ts. -/
structure MXRecord where
  exchange : String
  priority : Nat
deriving DecidableEq, Repr

/-- `MXResult` from types.ts. -/
structure MXResult where
  found : Bool
  records : List MXRecord
  issues : List Issue
  skipped : Bool := false
deriving DecidableEq, Repr

/-- `BIMIResult` from src/checks/bimi.ts. -/
structure BIMIResult where
  found : Bool
  record : Option String := none
  version : Option String := none
  logoUrl : Option String := none
  certificateUrl : Option String := none
  issues : List Issue
  skipped : Bool := false
deriving DecidableEq, Repr

/-- The MTA-STS policy document fields used by the orchestrator
(`mtaSts.policy.mx`, the declared MX allow-list). -/
structure MTASTSPolicy where
  mx : List String
deriving DecidableEq, Repr

/-- `MTASTSResult` as consumed by the orchestrator (the checker itself is an
HTTP collaborator; its settled outcome is an input here). -/
structure MTASTSResult where
  found : Bool
  policy : Option MTASTSPolicy := none
  issues : List Issue
  skipped : Bool := false
deriving DecidableEq, Repr

/-- `TLSRPTResult` from src/checks/tls-rpt.ts. -/
structure TLSRPTResult where
  found : Bool
  record : Option String := none
  version : Option String := none
  rua : Option (List String) := none
  issues : List Issue
  skipped : Bool := false
deriving DecidableEq, Repr

/-- ARC-readiness result (derived, §4.1 of the spec). -/
structure ARCResult where
  ready : Bool
  canSign : Bool
  canValidate : Bool
  issues : List Issue
  skipped : Bool := false
deriving DecidableEq, Repr

/-- `DNSSECResult` as consumed by the orchestrator (`enabled` instead of
`found`). -/
structure DNSSECResult where
  enabled : Bool
  issues : List Issue
  skipped : Bool := false
deriving DecidableEq, Repr

/-- `WhoisResult` as consumed by the orchestrator. -/
structure WhoisResult where
  found : Bool
  issues : List Issue
  skipped : Bool := false
deriving DecidableEq, Repr

/-- `DomainResult` from types.ts, extended with the optional advanced-check
fields the current analyzer returns (absent on the invalid-input path). -/
structure DomainResult where
  domain : String
  grade : Grade
  score : Int
  timestamp : String
  spf : SPFResult
  dkim : DKIMResult
  dmarc : DMARCResult
  mx : MXResult
  bimi : Option BIMIResult := none
  mtaSts : Option MTASTSResult := none
  tlsRpt : Option TLSRPTResult := none
  arc : Option ARCResult := none
  dnssec : Option DNSSECResult := none
  whois : Option WhoisResult := none
  recommendations : List String
  error : Option String := none
deriving DecidableEq, Repr

/-! ## SPF checker (src/checks/spf.ts) -/

/-- Substring test (JS `String.prototype.includes`). -/
def containsSub (pat : List Char) : List Char → Bool
  | [] => pat.isEmpty
  | c :: t => isPre pat (c :: t) || containsSub pat t

/-- `MAX_DNS_LOOKUPS` from the SPF checker. -/
def MAX_DNS_LOOKUPS : Nat := 10

/-- SPF qualifier characters (regex class `[+\-~?]`). -/
def isQualChar (c : Char) : Bool := c == '+' || c == '-' || c == '~' || c == '?'

/-- Regex word character (`\w`), deciding the `\b` boundary after `all`. -/
def isWordChar (c : Char) : Bool :=
  (97 ≤ (lowerChar c).toNat && (lowerChar c).toNat ≤ 122) || isDigitChar c || c == '_'

/-- `all\b` matched case-insensitively at the head of the list. -/
def matchesAllB : List Char → Bool
  | a :: b :: c :: rest =>
    lowerChar a == 'a' && lowerChar b == 'l' && lowerChar c == 'l' &&
    (match rest with
     | [] => true
     | d :: _ => !isWordChar d)
  | _ => false

/-- `extractMechanism`: first match of `/([+\-~?]?)all\b/i`, returned as
`qualifier ++ "all"` with the qualifier defaulting to `+`.  The scan is
leftmost-first and, at each position, tries the optional qualifier greedily,
exactly like the regex engine. -/
def extractMechanismL : List Char → Option (List Char)
  | [] => none
  | c :: t =>
    if isQualChar c && matchesAllB t then some [c, 'a', 'l', 'l']
    else if matchesAllB (c :: t) then some ['+', 'a', 'l', 'l']
    else extractMechanismL t

/-- `extractIncludes`: all matches of `/include:([^\s]+)/gi`, non-overlapping,
capture preserved in original case.  The `skip` argument replays the regex
engine resuming after the end of the previous match. -/
def extractIncludesGo : List Char → Nat → List (List Char)
  | [], _ => []
  | _ :: t, skip + 1 => extractIncludesGo t skip
  | c :: t, 0 =>
    if isPreCI (strL "include:") (c :: t) then
      let cap := ((c :: t).drop 8).takeWhile (fun x => !isWsChar x)
      if cap.isEmpty then extractIncludesGo t 0
      else cap :: extractIncludesGo t (7 + cap.length)
    else extractIncludesGo t 0

/-- `extractIncludes` from the SPF checker. -/
def extractIncludesL (record : List Char) : List (List Char) :=
  extractIncludesGo record 0

/-- The `lookupMechanisms` patterns after the source's `mech.trim()`
(the trailing spaces of `'a '`, `'mx '`, `'ptr '` are removed by `trim`, so
the compiled regexes are the bare substrings below). -/
def spfLookupPats : List (List Char) :=
  [strL "include:", strL "a:", strL "a", strL "mx:", strL "mx",
   strL "ptr:", strL "ptr", strL "exists:", strL "redirect="]

/-- `countDNSLookups` from the SPF checker: substring-occurrence counts of the
trimmed patterns over the lower-cased record, plus one for each of the
"implicit `a`/`mx`" whitespace-delimited regex tests. -/
def countDNSLookups (record : List Char) : Nat :=
  let lower := toLowerL record
  let base := (spfLookupPats.map (fun p => countOccur p lower)).sum
  base + (if hasBareTok (strL "a") record then 1 else 0)
       + (if hasBareTok (strL "mx") record then 1 else 0)

/-- TXT answers filtered to SPF records: chunks joined, then
`v=spf1`-prefixed case-insensitively. -/
def spfFilter (txts : List (List String)) : List (List Char) :=
  (txts.map (fun r => strL (String.join r))).filter
    (fun r => isPre (strL "v=spf1") (toLowerL r))

/-- `checkSPF` (the record-analysis path; the DNS answer is the argument). -/
def checkSPF (txts : List (List String)) : SPFResult :=
  let spfRecords := spfFilter txts
  match spfRecords with
  | [] =>
    { found := false
      issues := [⟨Severity.critical, "No SPF record found",
                  some "Add an SPF record to prevent email spoofing"⟩] }
  | rec :: _ =>
    let n := spfRecords.length
    let multiIssues : List Issue :=
      if n > 1 then
        [⟨Severity.high, "Multiple SPF records found (" ++ toString n ++ ")",
          some "Only one SPF record should exist per domain"⟩]
      else []
    let mechanism := extractMechanismL rec
    let includes := extractIncludesL rec
    let lookupCount := countDNSLookups rec
    let mechIssues : List Issue :=
      if mechanism == some (strL "+all") then
        [⟨Severity.critical, "SPF uses +all (pass all) - effectively no protection",
          some "Change to -all (hardfail) for maximum protection"⟩]
      else if mechanism == some (strL "?all") then
        [⟨Severity.high, "SPF uses ?all (neutral) - weak protection",
          some "Change to -all (hardfail) for maximum protection"⟩]
      else if mechanism == some (strL "~all") then
        [⟨Severity.medium, "SPF uses ~all (softfail) - consider using hardfail",
          some "Change to -all (hardfail) when ready for stricter enforcement"⟩]
      else if mechanism == some (strL "-all") then []
      else
        [⟨Severity.high, "SPF record has no all mechanism",
          some "Add -all at the end of your SPF record"⟩]
    let lookupIssues : List Issue :=
      if lookupCount > MAX_DNS_LOOKUPS then
        [⟨Severity.high,
          "SPF record exceeds DNS lookup limit (" ++ toString lookupCount ++ "/"
            ++ toString MAX_DNS_LOOKUPS ++ ")",
          some "Reduce the number of include/redirect mechanisms"⟩]
      else if lookupCount > 7 then
        [⟨Severity.medium,
          "SPF record is close to DNS lookup limit (" ++ toString lookupCount ++ "/"
            ++ toString MAX_DNS_LOOKUPS ++ ")",
          some "Consider flattening SPF record to avoid future issues"⟩]
      else []
    let ptrIssues : List Issue :=
      if containsSub (strL " ptr") (toLowerL rec) then
        [⟨Severity.medium, "SPF record uses deprecated ptr mechanism",
          some "Replace ptr with explicit IP ranges or include statements"⟩]
      else []
    { found := true
      record := some ⟨rec⟩
      mechanism := mechanism.map fun l => (⟨l⟩ : String)
      lookupCount := some lookupCount
      includes := some (includes.map fun l => (⟨l⟩ : String))
      issues := multiIssues ++ mechIssues ++ lookupIssues ++ ptrIssues }

/-- Splitting on whitespace, dropping empty pieces (used only by the
spec-side SPF lookup-count rule below). -/
def splitWs : List Char → List (List Char)
  | [] => [[]]
  | c :: t =>
    if isWsChar c then [] :: splitWs t
    else
      match splitWs t with
      | [] => [[c]]
      | h :: r => (c :: h) :: r

/-- Spec-side counting rule for SPF DNS lookups (§4.1/§9 of the spec):
every `include`, `a`, `mx`, `ptr`, `exists`, and `redirect` mechanism counts
once, whether or not it carries an explicit domain.  Terms are the
whitespace-delimited parts of the record, with an optional leading qualifier
stripped.  This is the specification's rule, written for comparison with the
source's `countDNSLookups`. -/
def specLookupCount (record : List Char) : Nat :=
  ((splitWs record).filter (fun t => !t.isEmpty)).countP fun term =>
    let t := toLowerL (match term with
      | c :: rest => if isQualChar c then rest else term
      | [] => term)
    t == strL "a" || t == strL "mx" || t == strL "ptr" ||
    isPre (strL "a:") t || isPre (strL "mx:") t || isPre (strL "ptr:") t ||
    isPre (strL "include:") t || isPre (strL "exists:") t ||
    isPre (strL "redirect=") t

/-! ## DMARC checker (src/checks/dmarc.ts) -/

/-- After a `;`, the regex tail `\s*key=([^;\s]+)` (case-insensitive `key=`,
capture of at least one char that is neither `;` nor whitespace). -/
def tagCapAt (key l : List Char) : Option (List Char) :=
  match stripPreCI key (l.dropWhile isWsChar) with
  | some rest =>
    let cap := rest.takeWhile fun c => !(c == ';' || isWsChar c)
    if cap.isEmpty then none else some cap
  | none => none

/-- First match of `/;\s*key=([^;\s]+)/i` (used for `p=` and `sp=`): every
match starts at a `;`, and a failed attempt resumes the scan past it. -/
def findSemiTag (key : List Char) : List Char → Option (List Char)
  | [] => none
  | c :: t =>
    if c == ';' then
      match tagCapAt key t with
      | some cap => some cap
      | none => findSemiTag key t
    else findSemiTag key t

/-- After a `;`, the regex tail `\s*pct=(\d+)`. -/
def numCapAt (key l : List Char) : Option (List Char) :=
  match stripPreCI key (l.dropWhile isWsChar) with
  | some rest =>
    let cap := rest.takeWhile isDigitChar
    if cap.isEmpty then none else some cap
  | none => none

/-- First match of `/;\s*pct=(\d+)/i`. -/
def findSemiNum (key : List Char) : List Char → Option (List Char)
  | [] => none
  | c :: t =>
    if c == ';' then
      match numCapAt key t with
      | some cap => some cap
      | none => findSemiNum key t
    else findSemiNum key t

/-- First match of `/key=([^;]+)/i` anywhere in the record (used for the
`rua=`/`ruf=` reporting-address tags). -/
def findTagVal (key : List Char) : List Char → Option (List Char)
  | [] => none
  | c :: t =>
    match stripPreCI key (c :: t) with
    | some rest =>
      let cap := rest.takeWhile fun x => x != ';'
      if cap.isEmpty then findTagVal key t else some cap
    | none => findTagVal key t

/-- The `{none, quarantine, reject}` value restriction shared by
`extractPolicy` and `extractSubdomainPolicy`. -/
def parsePolicyValue (cap : List Char) : Option DMARCPolicy :=
  let p := toLowerL cap
  if p == strL "none" then some DMARCPolicy.none
  else if p == strL "quarantine" then some DMARCPolicy.quarantine
  else if p == strL "reject" then some DMARCPolicy.reject
  else Option.none

/-- `extractPolicy` from the DMARC checker. -/
def extractPolicyL (record : List Char) : Option DMARCPolicy :=
  (findSemiTag (strL "p=") record).bind parsePolicyValue

/-- `extractSubdomainPolicy` from the DMARC checker. -/
def extractSubdomainPolicyL (record : List Char) : Option DMARCPolicy :=
  (findSemiTag (strL "sp=") record).bind parsePolicyValue

/-- `extractReportingAddresses` from the DMARC checker: the first
`tag=([^;]+)` capture, comma-split, trimmed, empty entries dropped. -/
def extractReportingAddressesL (record key : List Char) : List (List Char) :=
  match findTagVal key record with
  | some cap => ((splitOnL ',' cap).map trimL).filter fun a => !a.isEmpty
  | none => []

/-- `extractPercentage` from the DMARC checker. -/
def extractPercentageL (record : List Char) : Option Nat :=
  (findSemiNum (strL "pct=") record).bind fun cap =>
    let pct := digitsToNat cap
    if pct ≤ 100 then some pct else none

/-- The display string of a DMARC policy value (for issue messages). -/
def policyStr : DMARCPolicy → String
  | DMARCPolicy.none => "none"
  | DMARCPolicy.quarantine => "quarantine"
  | DMARCPolicy.reject => "reject"

/-- TXT answers at `_dmarc.<domain>` filtered to DMARC records. -/
def dmarcFilter (txts : List (List String)) : List (List Char) :=
  (txts.map (fun r => strL (String.join r))).filter
    (fun r => isPre (strL "v=dmarc1") (toLowerL r))

/-- `checkDMARC` (the record-analysis path; the DNS answer is the argument). -/
def checkDMARC (txts : List (List String)) : DMARCResult :=
  let dmarcRecords := dmarcFilter txts
  match dmarcRecords with
  | [] =>
    { found := false
      issues := [⟨Severity.critical, "No DMARC record found",
                  some "Add a DMARC record to specify email authentication policy"⟩] }
  | rec :: _ =>
    let n := dmarcRecords.length
    let multiIssues : List Issue :=
      if n > 1 then
        [⟨Severity.high, "Multiple DMARC records found (" ++ toString n ++ ")",
          some "Only one DMARC record should exist"⟩]
      else []
    let policy := extractPolicyL rec
    let subdomainPolicy := extractSubdomainPolicyL rec
    let rua := extractReportingAddressesL rec (strL "rua=")
    let ruf := extractReportingAddressesL rec (strL "ruf=")
    let pct := extractPercentageL rec
    let policyIssues : List Issue :=
      match policy with
      | Option.none =>
        [⟨Severity.critical, "DMARC record has no policy (p=) specified",
          some "Add a policy: p=reject for maximum protection"⟩]
      | some DMARCPolicy.none =>
        [⟨Severity.high, "DMARC policy is \"none\" - no enforcement",
          some "Change to p=quarantine or p=reject after monitoring"⟩]
      | some DMARCPolicy.quarantine =>
        [⟨Severity.medium, "DMARC policy is \"quarantine\" - consider upgrading",
          some "Change to p=reject for maximum protection when ready"⟩]
      | some DMARCPolicy.reject => []
    let spIssues : List Issue :=
      match subdomainPolicy with
      | some sp =>
        if policy == some DMARCPolicy.reject && sp != DMARCPolicy.reject then
          [⟨Severity.medium,
            "Subdomain policy (sp=" ++ policyStr sp ++ ") is weaker than main policy",
            some "Consider setting sp=reject as well"⟩]
        else []
      | Option.none => []
    let reportingEnabled := !rua.isEmpty || !ruf.isEmpty
    let repIssues : List Issue :=
      if reportingEnabled then []
      else
        [⟨Severity.medium, "No DMARC reporting configured",
          some "Add rua= to receive aggregate reports"⟩]
    let pctIssues : List Issue :=
      match pct with
      | some p =>
        if p < 100 then
          [⟨Severity.low,
            "DMARC policy applies to only " ++ toString p ++ "% of messages",
            some "Consider increasing pct to 100 after testing"⟩]
        else []
      | Option.none => []
    { found := true
      record := some ⟨rec⟩
      policy := policy
      subdomainPolicy := subdomainPolicy
      reportingEnabled := some reportingEnabled
      rua := some (rua.map fun l => (⟨l⟩ : String))
      ruf := some (ruf.map fun l => (⟨l⟩ : String))
      pct := pct
      issues := multiIssues ++ policyIssues ++ spIssues ++ repIssues ++ pctIssues }

/-! ## Domain normalization and validation (src/core/analyzer.ts lines 34–41,
normalization algorithm from the analyzer's inline version) -/

/-- Model of `new URL(d).hostname` for an already lower-cased URL string with
its scheme prefix removed: the host part runs until a path, port, query or
fragment delimiter.  (The WHATWG parser handles more exotic inputs; the
scanner only reaches this with `http://`/`https://`-prefixed strings and the
claims under verification use plain host names.) -/
def urlHostL (l : List Char) : List Char :=
  l.takeWhile fun c => !(c == '/' || c == ':' || c == '?' || c == '#')

/-- Domain normalization from the analyzer: lower-case, trim, take the URL
hostname when an `http(s)://` URL was given, then strip a single trailing
dot (`replace(/\.$/, '')`). -/
def normalizeL (l : List Char) : List Char :=
  let t := trimL (toLowerL l)
  let h :=
    if isPre (strL "http://") t then urlHostL (t.drop 7)
    else if isPre (strL "https://") t then urlHostL (t.drop 8)
    else t
  stripDotL h

/-- `normalizeDomain` on strings. -/
def normalizeDomain (s : String) : String := ⟨normalizeL s.data⟩

/-- A character allowed inside a domain label. -/
def isLabelChar (c : Char) : Bool :=
  isDigitChar c || (97 ≤ c.toNat && c.toNat ≤ 122) || (65 ≤ c.toNat && c.toNat ≤ 90)
    || c == '-'

/-- A syntactically valid DNS label: non-empty, at most 63 chars,
alphanumeric or hyphen, not starting or ending with a hyphen. -/
def isValidLabel (l : List Char) : Bool :=
  !l.isEmpty && l.length ≤ 63 && l.all isLabelChar &&
  (match l.head? with
   | some c => c != '-'
   | _ => true) &&
  (match l.getLast? with
   | some c => c != '-'
   | _ => true)

/-- Modelled from the spec: `isValidDomain` lives in `src/utils`, which is not
part of the sources (only its tests and the analyzer's import are).  §7 of the
spec only requires a malformed-domain predicate that rejects strings such as
`"not a domain"` and accepts host names such as `"example.com"`; this models
it as standard domain-name syntax — dot-separated valid labels, at least two
of them, total length at most 253. -/
def isValidDomain (s : String) : Bool :=
  let ls := splitOnL '.' s.data
  !s.data.isEmpty && s.data.length ≤ 253 && ls.length ≥ 2 && ls.all isValidLabel

/-- `COMMON_DKIM_SELECTORS` from types.ts. -/
def COMMON_DKIM_SELECTORS : List String :=
  ["default", "google", "selector1", "selector2", "k1", "k2", "s1", "s2",
   "dkim", "mail", "email", "smtp", "mandrill", "mailchimp", "amazonses",
   "ses", "sendgrid", "sg", "postmark", "pm", "mailgun", "mg", "sparkpost",
   "zendesk", "zendesk1", "zendesk2"]

/-! ## Orchestrator (src/core/analyzer.ts) -/

/-- The per-mechanism enable toggles of `options.checks`. -/
structure Checks where
  spf : Option Bool := none
  dkim : Option Bool := none
  dmarc : Option Bool := none
  mx : Option Bool := none
  bimi : Option Bool := none
  mtaSts : Option Bool := none
  tlsRpt : Option Bool := none
  arc : Option Bool := none
  dnssec : Option Bool := none
  whois : Option Bool := none
deriving DecidableEq, Repr

/-- The `ScanOptions` fields the orchestrator reads. -/
structure ScanOptions where
  dkimSelectors : Option (List String) := none
  timeout : Option Nat := none
  checks : Option Checks := none
deriving DecidableEq, Repr

/-- `isEnabled`: a check runs unless its toggle is explicitly `false`
(`checks[check] !== false` over `options.checks || {}`). -/
def isEnabled (opts : ScanOptions) (f : Checks → Option Bool) : Bool :=
  match opts.checks with
  | some cs => f cs != some false
  | none => true

/-- Line 58 of the analyzer: fall back to `COMMON_DKIM_SELECTORS` when the
custom selector list is absent *or empty* (`options.dkimSelectors?.length`
is falsy for both `undefined` and `0`). -/
def effectiveDkimSelectors (o : Option (List String)) : List String :=
  match o with
  | some l => if l.isEmpty then COMMON_DKIM_SELECTORS else l
  | none => COMMON_DKIM_SELECTORS

/-- The settled outcome of every dispatched check, modelling
`Promise.allSettled` over the per-check promises: `.ok` is a fulfilled
branch, `.error` a rejected one carrying the rejection's `message` (timeouts
reject with `"<name> check timed out"` and take the same path).  The DKIM
branch is a function of the selector list it was dispatched with. -/
structure Settled where
  spf : Except String SPFResult
  dkim : List String → Except String DKIMResult
  dmarc : Except String DMARCResult
  mx : Except String MXResult
  bimi : Except String BIMIResult
  mtaSts : Except String MTASTSResult
  tlsRpt : Except String TLSRPTResult
  dnssec : Except String DNSSECResult
  whois : Except String WhoisResult

/-- `reason?.message || 'Unknown error'`. -/
def orUnknown (e : String) : String := if e = "" then "Unknown error" else e

/-- `createFailedResult`'s single issue. -/
def failedIssue (checkName e : String) : Issue :=
  ⟨Severity.high, checkName ++ " check failed: " ++ orUnknown e,
   some "Check DNS configuration and try again"⟩

/-- The error summary of one rejected branch (`"<Mechanism>: <reason>"`). -/
def errEntry (checkName : String) : Except String α → Option String
  | Except.error e => some (checkName ++ ": " ++ e)
  | Except.ok _ => none

/-! ## Scoring & recommendation engine

`src/core/scorer.ts` itself is not among the sources — only its test file is —
so `calculateGrade`, `generateRecommendations` and `checkARCReadiness` are
modelled from §4.1/§4.4 of the spec. -/

/-- Modelled from the spec: ARC-readiness (`checkARCReadiness`) is a pure
function of the settled SPF/DKIM/DMARC results — readiness requires SPF or
DKIM present plus a DMARC record — with no further I/O. -/
def checkARCReadiness (spf : SPFResult) (dkim : DKIMResult) (dmarc : DMARCResult) :
    ARCResult :=
  let ready := (spf.found || dkim.found) && dmarc.found
  { ready := ready
    canSign := dkim.found && dmarc.found
    canValidate := spf.found && dmarc.found
    issues :=
      if ready then []
      else [⟨Severity.low, "Domain is not ARC-ready",
             some "Configure SPF or DKIM together with DMARC to enable ARC"⟩]
    skipped := false }

/-- Modelled from the spec (§4.4): the SPF sub-score — qualifier strength
(`-all` best … `+all` worst) minus a DNS-lookup-count penalty; zero when the
check was skipped or no record was found. -/
def spfScore (r : SPFResult) : Int :=
  if r.skipped || !r.found then 0
  else
    (if r.mechanism == some "-all" then 30
     else if r.mechanism == some "~all" then 25
     else if r.mechanism == some "?all" then 18
     else if r.mechanism == some "+all" then 5
     else 15)
    - (match r.lookupCount with
       | some n => if n > 10 then 10 else 0
       | none => 0)

/-- Modelled from the spec (§4.4): the DKIM sub-score — presence plus a bonus
when the minimum key length across found selectors is at least 2048 bits. -/
def dkimScore (r : DKIMResult) : Int :=
  if r.skipped || !r.found then 0
  else
    20 + (if (r.selectors.filter (·.found)).all
              (fun s => match s.keyLength with
                        | some k => 2048 ≤ k
                        | none => true)
          then 5 else 0)

/-- Modelled from the spec (§4.4): the DMARC sub-score — policy strength,
reporting presence, percentage coverage. -/
def dmarcScore (r : DMARCResult) : Int :=
  if r.skipped || !r.found then 0
  else
    (match r.policy with
     | some DMARCPolicy.reject => 25
     | some DMARCPolicy.quarantine => 20
     | some DMARCPolicy.none => 13
     | Option.none => 10)
    + (if r.reportingEnabled == some true then 5 else 0)
    + (match r.pct with
       | some p => if p = 100 then 5 else 2
       | Option.none => 5)

/-- Modelled from the spec (§4.4): MX presence as a minor bonus. -/
def mxScore (r : MXResult) : Int :=
  if r.skipped || !r.found then 0 else 5

/-- Modelled from the spec (§4.4): small bonuses for the optional mechanisms;
a skipped or absent mechanism contributes nothing. -/
def bimiScore : Option BIMIResult → Int
  | some r => if !r.skipped && r.found then 2 else 0
  | none => 0

/-- Modelled from the spec (§4.4): MTA-STS bonus. -/
def mtaStsScore : Option MTASTSResult → Int
  | some r => if !r.skipped && r.found then 3 else 0
  | none => 0

/-- Modelled from the spec (§4.4): TLS-RPT bonus. -/
def tlsRptScore : Option TLSRPTResult → Int
  | some r => if !r.skipped && r.found then 2 else 0
  | none => 0

/-- Modelled from the spec (§4.4): ARC-readiness bonus. -/
def arcScore : Option ARCResult → Int
  | some r => if !r.skipped && r.ready then 3 else 0
  | none => 0

/-- Modelled from the spec (§4.4): DNSSEC bonus. -/
def dnssecScore : Option DNSSECResult → Int
  | some r => if !r.skipped && r.enabled then 3 else 0
  | none => 0

/-- Grade thresholds (§4.4): A ≥ 90, B ≥ 75, C ≥ 50, D ≥ 25, F otherwise. -/
def gradeOf (score : Int) : Grade :=
  if 90 ≤ score then Grade.A
  else if 75 ≤ score then Grade.B
  else if 50 ≤ score then Grade.C
  else if 25 ≤ score then Grade.D
  else Grade.F

/-- Modelled from the spec (§4.4): `calculateGrade` — a weighted sum of
independently evaluated per-mechanism sub-scores, clamped to `[0, 100]`, with
the grade derived from the fixed thresholds. -/
def calculateGrade (spf : SPFResult) (dkim : DKIMResult) (dmarc : DMARCResult)
    (mx : MXResult) (bimi : Option BIMIResult) (mtaSts : Option MTASTSResult)
    (tlsRpt : Option TLSRPTResult) (arc : Option ARCResult)
    (dnssec : Option DNSSECResult) : Grade × Int :=
  let total := spfScore spf + dkimScore dkim + dmarcScore dmarc + mxScore mx
    + bimiScore bimi + mtaStsScore mtaSts + tlsRptScore tlsRpt + arcScore arc
    + dnssecScore dnssec
  let score := min 100 (max 0 total)
  (gradeOf score, score)

/-- Numeric rank of a severity, for ordering recommendations. -/
def sevRank : Severity → Nat
  | Severity.critical => 4
  | Severity.high => 3
  | Severity.medium => 2
  | Severity.low => 1
  | Severity.info => 0

/-- Stable insertion into a list sorted by descending severity. -/
def insertBySev (i : Issue) : List Issue → List Issue
  | [] => [i]
  | j :: t =>
    if sevRank j.severity < sevRank i.severity then i :: j :: t
    else j :: insertBySev i t

/-- Stable sort by descending severity. -/
def sortBySev : List Issue → List Issue
  | [] => []
  | i :: t => insertBySev i (sortBySev t)

/-- Drop issues whose message was already seen (first occurrence wins). -/
def dedupeByMsg : List Issue → List String → List Issue
  | [], _ => []
  | i :: t, seen =>
    if seen.contains i.message then dedupeByMsg t seen
    else i :: dedupeByMsg t (i.message :: seen)

/-- The issues of one mechanism that can produce a recommendation; a skipped
mechanism contributes none. -/
def recsSource (skipped : Bool) (issues : List Issue) : List Issue :=
  if skipped then [] else issues.filter fun i => i.recommendation.isSome

/-- Modelled from the spec (§4.4): `generateRecommendations` — derived from
the issues' `recommendation` fields, ordered by descending issue severity,
de-duplicated by message; skipped mechanisms never contribute. -/
def generateRecommendations (spf : SPFResult) (dkim : DKIMResult)
    (dmarc : DMARCResult) (mx : MXResult) (bimi : Option BIMIResult)
    (mtaSts : Option MTASTSResult) (tlsRpt : Option TLSRPTResult)
    (arc : Option ARCResult) (dnssec : Option DNSSECResult) : List String :=
  let pool :=
    recsSource spf.skipped spf.issues ++ recsSource dkim.skipped dkim.issues
    ++ recsSource dmarc.skipped dmarc.issues ++ recsSource mx.skipped mx.issues
    ++ (match bimi with
        | some b => recsSource b.skipped b.issues
        | none => [])
    ++ (match mtaSts with
        | some m => recsSource m.skipped m.issues
        | none => [])
    ++ (match tlsRpt with
        | some t => recsSource t.skipped t.issues
        | none => [])
    ++ (match arc with
        | some a => recsSource a.skipped a.issues
        | none => [])
    ++ (match dnssec with
        | some d => recsSource d.skipped d.issues
        | none => [])
  (dedupeByMsg (sortBySev pool) []).map fun i => i.recommendation.getD ""

/-- Disabled-check placeholder for SPF (`{found:false, skipped:true, issues:[]}`). -/
def spfSkippedRes : SPFResult := { found := false, issues := [], skipped := true }

/-- Disabled-check placeholder for DKIM. -/
def dkimSkippedRes : DKIMResult :=
  { found := false, selectors := [], issues := [], skipped := true }

/-- Disabled-check placeholder for DMARC. -/
def dmarcSkippedRes : DMARCResult := { found := false, issues := [], skipped := true }

/-- Disabled-check placeholder for MX. -/
def mxSkippedRes : MXResult :=
  { found := false, records := [], issues := [], skipped := true }

/-- Disabled-check placeholder for BIMI. -/
def bimiSkippedRes : BIMIResult := { found := false, issues := [], skipped := true }

/-- Disabled-check placeholder for MTA-STS. -/
def mtaStsSkippedRes : MTASTSResult := { found := false, issues := [], skipped := true }

/-- Disabled-check placeholder for TLS-RPT. -/
def tlsRptSkippedRes : TLSRPTResult := { found := false, issues := [], skipped := true }

/-- Disabled-check placeholder for DNSSEC (`enabled:false`). -/
def dnssecSkippedRes : DNSSECResult := { enabled := false, issues := [], skipped := true }

/-- Disabled-check placeholder for WHOIS. -/
def whoisSkippedRes : WhoisResult := { found := false, issues := [], skipped := true }

/-- Placeholder for ARC when its own toggle or any SPF/DKIM/DMARC
prerequisite is disabled. -/
def arcSkippedRes : ARCResult :=
  { ready := false, canSign := false, canValidate := false, issues := [],
    skipped := true }

/-- `createFailedResult<SPFResult>`. -/
def spfFailed (e : String) : SPFResult := { found := false, issues := [failedIssue "SPF" e] }

/-- `createFailedResult<DKIMResult>`. -/
def dkimFailed (e : String) : DKIMResult :=
  { found := false, selectors := [], issues := [failedIssue "DKIM" e] }

/-- `createFailedResult<DMARCResult>`. -/
def dmarcFailed (e : String) : DMARCResult :=
  { found := false, issues := [failedIssue "DMARC" e] }

/-- `createFailedResult<MXResult>`. -/
def mxFailed (e : String) : MXResult :=
  { found := false, records := [], issues := [failedIssue "MX" e] }

/-- `createFailedResult<BIMIResult>` (a rejection always carries a truthy
`Error`, so the rejected branch always builds the failed result). -/
def bimiFailed (e : String) : BIMIResult :=
  { found := false, issues := [failedIssue "BIMI" e] }

/-- `createFailedResult<MTASTSResult>`. -/
def mtaStsFailed (e : String) : MTASTSResult :=
  { found := false, issues := [failedIssue "MTA-STS" e] }

/-- `createFailedResult<TLSRPTResult>`. -/
def tlsRptFailed (e : String) : TLSRPTResult :=
  { found := false, issues := [failedIssue "TLS-RPT" e] }

/-- The analyzer's DNSSEC failure conversion: `enabled:false` and a single
`high` issue with no recommendation. -/
def dnssecFailed (e : String) : DNSSECResult :=
  { enabled := false
    issues := [⟨Severity.high, "DNSSEC check failed: " ++ orUnknown e, none⟩] }

/-- The analyzer's WHOIS failure conversion: note the severity is `info`
(analyzer.ts line 137), unlike every other failed branch. -/
def whoisFailed (e : String) : WhoisResult :=
  { found := false
    issues := [⟨Severity.info, "WHOIS check failed: " ++ orUnknown e, none⟩] }

/-- Extract a settled branch, converting a rejection through the given
failure constructor. -/
def settleWith (failed : String → α) : Except String α → α
  | Except.ok v => v
  | Except.error e => failed e

/-- One MTA-STS allow-list pattern against a normalized MX host: a leading
`*.` entry matches via `endsWith` on its dot-prefixed remainder — i.e. at any
depth — or equality with the bare remainder; other entries match by
case-folded equality. -/
def mtaStsPatternMatches (mxHost : List Char) (pattern : String) : Bool :=
  let p := toLowerL pattern.data
  if isPre (strL "*.") p then
    endsL (p.drop 1) mxHost || mxHost == p.drop 2
  else mxHost == p

/-- An actual MX hostname as compared against the MTA-STS policy:
case-folded, single trailing dot stripped. -/
def normMxHost (r : MXRecord) : List Char := stripDotL (toLowerL r.exchange.data)

/-- The `high` issue appended for an MX host no policy entry covers. -/
def mtaStsUncoveredIssue (mxHost : List Char) : Issue :=
  ⟨Severity.high,
   "MX host \"" ++ String.mk mxHost ++ "\" not covered by MTA-STS policy",
   some ("Add \"mx: " ++ String.mk mxHost ++ "\" or appropriate wildcard to MTA-STS policy")⟩

/-- The analyzer's MX-coverage loop: walk the normalized MX hosts in order,
appending an issue for each one matched by no pattern. -/
def mtaStsCrossIssues (patterns : List String) (hosts : List (List Char))
    (issues : List Issue) : List Issue :=
  hosts.foldl
    (fun acc h =>
      if patterns.any (mtaStsPatternMatches h) then acc
      else acc ++ [mtaStsUncoveredIssue h])
    issues

/-- The MTA-STS / MX consistency check (analyzer.ts lines 162–186). -/
def applyMtaStsCheck (mtaSts : MTASTSResult) (mx : MXResult) : MTASTSResult :=
  match mtaSts.policy with
  | some pol =>
    if mtaSts.found && !pol.mx.isEmpty && mx.found then
      { mtaSts with
        issues := mtaStsCrossIssues pol.mx (mx.records.map normMxHost) mtaSts.issues }
    else mtaSts
  | none => mtaSts

/-- The BIMI / DMARC prerequisite check (analyzer.ts lines 145–160). -/
def applyBimiCheck (bimi : BIMIResult) (dmarc : DMARCResult) : BIMIResult :=
  if bimi.found then
    if !dmarc.found then
      { bimi with
        issues := bimi.issues ++
          [⟨Severity.high, "BIMI requires DMARC to be configured",
            some "Add a DMARC record with p=quarantine or p=reject"⟩] }
    else if dmarc.policy == some DMARCPolicy.none || dmarc.policy == Option.none then
      { bimi with
        issues := bimi.issues ++
          [⟨Severity.high, "BIMI requires DMARC policy of quarantine or reject",
            some "Upgrade DMARC policy from none to quarantine or reject"⟩] }
    else bimi
  else bimi

/-- One appended WHOIS recommendation line (icon and label by severity). -/
def whoisRecString (sev : Severity) (rec : String) : String :=
  (match sev with
   | Severity.critical => "🚨"
   | Severity.high => "⚠️"
   | _ => "💡") ++ " " ++
  (match sev with
   | Severity.critical => "[緊急]"
   | Severity.high => "[重要]"
   | _ => "[推奨]") ++ " " ++ rec

/-- The analyzer's WHOIS recommendation appendix (lines 191–200): for a
present, non-skipped WHOIS result, push one line per issue that carries a
(truthy) recommendation and is not informational. -/
def whoisRecs (w : WhoisResult) : List String :=
  if !w.skipped && !w.issues.isEmpty then
    w.issues.foldl
      (fun acc issue =>
        match issue.recommendation with
        | some rec =>
          if rec != "" && issue.severity != Severity.info then
            acc ++ [whoisRecString issue.severity rec]
          else acc
        | none => acc)
      []
  else []

/-- The invalid-domain short-circuit result (analyzer.ts lines 41–54). -/
def invalidResult (d ts : String) : DomainResult :=
  { domain := d
    grade := Grade.F
    score := 0
    timestamp := ts
    spf := { found := false, issues := [] }
    dkim := { found := false, selectors := [], issues := [] }
    dmarc := { found := false, issues := [] }
    mx := { found := false, records := [], issues := [] }
    recommendations := []
    error := some ("Invalid domain format: \"" ++ d ++ "\"") }

/-- The check-level error summary (analyzer.ts lines 202–212): one
`"<Mechanism>: <reason>"` entry per rejected branch, in dispatch order. -/
def branchErrors (spfO : Except String SPFResult) (dkimO : Except String DKIMResult)
    (dmarcO : Except String DMARCResult) (mxO : Except String MXResult)
    (bimiO : Except String BIMIResult) (mtaStsO : Except String MTASTSResult)
    (tlsRptO : Except String TLSRPTResult) (dnssecO : Except String DNSSECResult)
    (whoisO : Except String WhoisResult) : List String :=
  [errEntry "SPF" spfO, errEntry "DKIM" dkimO, errEntry "DMARC" dmarcO,
   errEntry "MX" mxO, errEntry "BIMI" bimiO, errEntry "MTA-STS" mtaStsO,
   errEntry "TLS-RPT" tlsRptO, errEntry "DNSSEC" dnssecO,
   errEntry "WHOIS" whoisO].filterMap id

/-- `analyzeDomain` (src/core/analyzer.ts): normalize, short-circuit on an
invalid domain, dispatch the enabled checks (a disabled check settles
immediately as its `skipped` placeholder), convert each rejected branch into
a synthetic failed result, derive ARC, run the BIMI and MTA-STS
cross-validations, score, collect recommendations and the aggregate error.
`ts` is the `new Date().toISOString()` reading; `s` carries each enabled
branch's settled outcome. -/
def analyzeDomain (domain : String) (opts : ScanOptions) (ts : String)
    (s : Settled) : DomainResult :=
  let d := normalizeDomain domain
  if !isValidDomain d then invalidResult d ts
  else
    let dkimSelectors := effectiveDkimSelectors opts.dkimSelectors
    let spfO := if isEnabled opts (·.spf) then s.spf else Except.ok spfSkippedRes
    let dkimO := if isEnabled opts (·.dkim) then s.dkim dkimSelectors
                 else Except.ok dkimSkippedRes
    let dmarcO := if isEnabled opts (·.dmarc) then s.dmarc else Except.ok dmarcSkippedRes
    let mxO := if isEnabled opts (·.mx) then s.mx else Except.ok mxSkippedRes
    let bimiO := if isEnabled opts (·.bimi) then s.bimi else Except.ok bimiSkippedRes
    let mtaStsO := if isEnabled opts (·.mtaSts) then s.mtaSts
                   else Except.ok mtaStsSkippedRes
    let tlsRptO := if isEnabled opts (·.tlsRpt) then s.tlsRpt
                   else Except.ok tlsRptSkippedRes
    let dnssecO := if isEnabled opts (·.dnssec) then s.dnssec
                   else Except.ok dnssecSkippedRes
    let whoisO := if isEnabled opts (·.whois) then s.whois
                  else Except.ok whoisSkippedRes
    let spf := settleWith spfFailed spfO
    let dkim := settleWith dkimFailed dkimO
    let dmarc := settleWith dmarcFailed dmarcO
    let mx := settleWith mxFailed mxO
    let bimi := settleWith bimiFailed bimiO
    let mtaSts := settleWith mtaStsFailed mtaStsO
    let tlsRpt := settleWith tlsRptFailed tlsRptO
    let dnssec := settleWith dnssecFailed dnssecO
    let whois := settleWith whoisFailed whoisO
    let arcIsSkipped := !(isEnabled opts (·.arc)) || !(isEnabled opts (·.spf))
      || !(isEnabled opts (·.dkim)) || !(isEnabled opts (·.dmarc))
    let arc := if arcIsSkipped then arcSkippedRes else checkARCReadiness spf dkim dmarc
    let bimiX := applyBimiCheck bimi dmarc
    let mtaStsX := applyMtaStsCheck mtaSts mx
    let gs := calculateGrade spf dkim dmarc mx (some bimiX) (some mtaStsX)
      (some tlsRpt) (some arc) (some dnssec)
    let recommendations := generateRecommendations spf dkim dmarc mx (some bimiX)
      (some mtaStsX) (some tlsRpt) (some arc) (some dnssec) ++ whoisRecs whois
    let errors := branchErrors spfO dkimO dmarcO mxO bimiO mtaStsO tlsRptO
      dnssecO whoisO
    { domain := d
      grade := gs.1
      score := gs.2
      timestamp := ts
      spf := spf
      dkim := dkim
      dmarc := dmarc
      mx := mx
      bimi := some bimiX
      mtaSts := some mtaStsX
      tlsRpt := some tlsRpt
      arc := some arc
      dnssec := some dnssec
      whois := some whois
      recommendations := recommendations
      error := if errors.isEmpty then none else some (String.intercalate "; " errors) }

/-! ## Spec-side comparison definitions and auxiliary predicates -/

/-- Dot-joined labels (inverse of `splitOnL '.'` on label lists). -/
def joinDots : List (List Char) → List Char
  | [] => []
  | [x] => x
  | x :: y :: t => x ++ '.' :: joinDots (y :: t)

/-- The wildcard semantics stated by the claim/spec sentence: a leading `*.`
entry matches exactly the *direct* subdomains of its remainder (one extra
label, and not the remainder itself); other entries match by case-folded
equality.  Written for comparison with the source's
`mtaStsPatternMatches`. -/
def specDirectWildcardMatch (mxHost : List Char) (pattern : String) : Bool :=
  let p := toLowerL pattern.data
  if isPre (strL "*.") p then
    match splitOnL '.' mxHost with
    | lbl :: rest => !lbl.isEmpty && !rest.isEmpty && joinDots rest == p.drop 2
    | [] => false
  else mxHost == p

/-- A fulfilled check outcome never carries `skipped = true` (every check
function constructs its result without the `skipped` flag; only the
orchestrator's disabled-check placeholder sets it). -/
def okNotSkipped (f : α → Bool) : Except String α → Prop
  | Except.ok v => f v = false
  | Except.error _ => True

/-- Well-formedness of a settled-outcome vector: fulfilled values come from
the check functions, which never set `skipped`. -/
def CheckLike (s : Settled) : Prop :=
  okNotSkipped (·.skipped) s.spf ∧
  (∀ sels, okNotSkipped (·.skipped) (s.dkim sels)) ∧
  okNotSkipped (·.skipped) s.dmarc ∧
  okNotSkipped (·.skipped) s.mx ∧
  okNotSkipped (·.skipped) s.bimi ∧
  okNotSkipped (·.skipped) s.mtaSts ∧
  okNotSkipped (·.skipped) s.tlsRpt ∧
  okNotSkipped (·.skipped) s.dnssec ∧
  okNotSkipped (·.skipped) s.whois

/-- A settled-outcome vector in which every branch rejected with message
`"boom"` (used to exercise the failure-conversion paths on concrete
inputs). -/
def errSettled : Settled :=
  { spf := Except.error "boom"
    dkim := fun _ => Except.error "boom"
    dmarc := Except.error "boom"
    mx := Except.error "boom"
    bimi := Except.error "boom"
    mtaSts := Except.error "boom"
    tlsRpt := Except.error "boom"
    dnssec := Except.error "boom"
    whois := Except.error "boom" }

/-- The aggregate-error contribution of one branch as the claim states it:
`"<Mechanism>: <reason>"` when the branch was enabled and rejected, nothing
otherwise. -/
def errSummaryOf (name : String) (en : Bool) (o : Except String α) : List String :=
  if en then
    match o with
    | Except.error e => [name ++ ": " ++ e]
    | Except.ok _ => []
  else []

/-! ## Helper lemmas -/

theorem charOfNat_toNat {n : Nat} (h : n < 55296) : (Char.ofNat n).toNat = n := by
  have hv : n.isValidChar := Or.inl h
  unfold Char.ofNat
  rw [dif_pos hv]
  rfl

theorem lowerChar_toNat (c : Char) :
    (lowerChar c).toNat =
      if 65 ≤ c.toNat ∧ c.toNat ≤ 90 then c.toNat + 32 else c.toNat := by
  unfold lowerChar
  split
  · next h => exact charOfNat_toNat (by omega)
  · rfl

theorem lowerChar_fix_of {c : Char} (h : ¬(65 ≤ c.toNat ∧ c.toNat ≤ 90)) :
    lowerChar c = c := by
  unfold lowerChar
  rw [if_neg h]

theorem lowerChar_idem (c : Char) : lowerChar (lowerChar c) = lowerChar c := by
  apply lowerChar_fix_of
  rw [lowerChar_toNat]
  split
  · next h => omega
  · next h => omega

theorem mem_toLowerL_fix {c : Char} {l : List Char} (h : c ∈ toLowerL l) :
    lowerChar c = c := by
  unfold toLowerL at h
  obtain ⟨c', _, rfl⟩ := List.mem_map.mp h
  exact lowerChar_idem c'

theorem toLowerL_fix {l : List Char} (h : ∀ c ∈ l, lowerChar c = c) :
    toLowerL l = l := by
  induction l with
  | nil => rfl
  | cons c t ih =>
    unfold toLowerL at ih ⊢
    simp only [List.map_cons]
    rw [h c (by simp), ih (fun x hx => h x (by simp [hx]))]

theorem mem_trimL {c : Char} {l : List Char} (h : c ∈ trimL l) : c ∈ l := by
  unfold trimL at h
  have h1 := List.mem_reverse.mp h
  have h2 := (List.dropWhile_sublist _).mem h1
  have h3 := List.mem_reverse.mp h2
  exact (List.dropWhile_sublist _).mem h3

theorem mem_stripDotL {c : Char} {l : List Char} (h : c ∈ stripDotL l) : c ∈ l := by
  unfold stripDotL at h
  split at h
  · exact (List.dropLast_sublist l).mem h
  · exact h

theorem mem_urlHostL {c : Char} {l : List Char} (h : c ∈ urlHostL l) : c ∈ l :=
  (List.takeWhile_sublist _).mem h

theorem urlHostL_pred {c : Char} {l : List Char} (h : c ∈ urlHostL l) :
    (!(c == '/' || c == ':' || c == '?' || c == '#')) = true := by
  unfold urlHostL at h
  have hp := List.mem_takeWhile_imp h
  exact hp

theorem isPre_mem : ∀ {p l : List Char}, isPre p l = true → ∀ c ∈ p, c ∈ l := by
  intro p
  induction p with
  | nil => intro l _ c hc; cases hc
  | cons x xs ih =>
    intro l h c hc
    cases l with
    | nil => cases h
    | cons y ys =>
      unfold isPre at h
      rw [Bool.and_eq_true] at h
      rcases List.mem_cons.mp hc with hcx | hcs
      · subst hcx
        exact List.mem_cons.mpr (Or.inl (eq_of_beq h.1))
      · exact List.mem_cons.mpr (Or.inr (ih h.2 c hcs))

theorem isPre_append : ∀ {p a : List Char} (b : List Char),
    isPre p a = true → isPre p (a ++ b) = true := by
  intro p
  induction p with
  | nil => intro a b _; rfl
  | cons x xs ih =>
    intro a b h
    cases a with
    | nil => cases h
    | cons y ys =>
      unfold isPre at h
      rw [Bool.and_eq_true] at h
      show (x == y && isPre xs (ys ++ b)) = true
      rw [Bool.and_eq_true]
      exact ⟨h.1, ih b h.2⟩

theorem isPre_dropLast {p l : List Char} (h : isPre p l.dropLast = true) :
    isPre p l = true := by
  by_cases hl : l = []
  · subst hl; exact h
  · rw [← List.dropLast_append_getLast hl]
    exact isPre_append _ h

theorem isPre_stripDotL {p l : List Char} (h : isPre p (stripDotL l) = true) :
    isPre p l = true := by
  unfold stripDotL at h
  split at h
  · exact isPre_dropLast h
  · exact h

theorem mem_normalizeL_fix {c : Char} {l : List Char} (h : c ∈ normalizeL l) :
    lowerChar c = c := by
  unfold normalizeL at h
  have h1 := mem_stripDotL h
  split at h1
  · exact mem_toLowerL_fix (mem_trimL (List.mem_of_mem_drop (mem_urlHostL h1)))
  · split at h1
    · exact mem_toLowerL_fix (mem_trimL (List.mem_of_mem_drop (mem_urlHostL h1)))
    · exact mem_toLowerL_fix (mem_trimL h1)

theorem no_url_pre_of_no_colon {l : List Char} (h : ':' ∉ l) :
    isPre (strL "http://") l = false ∧ isPre (strL "https://") l = false := by
  constructor
  · cases hp : isPre (strL "http://") l with
    | false => rfl
    | true => exact absurd (isPre_mem hp ':' (by decide)) h
  · cases hp : isPre (strL "https://") l with
    | false => rfl
    | true => exact absurd (isPre_mem hp ':' (by decide)) h

theorem normalizeL_no_url_pre (l : List Char) :
    isPre (strL "http://") (normalizeL l) = false ∧
    isPre (strL "https://") (normalizeL l) = false := by
  unfold normalizeL
  cases h1 : isPre (strL "http://") (trimL (toLowerL l)) with
  | true =>
    simp only [h1, if_true]
    apply no_url_pre_of_no_colon
    intro hc
    have := urlHostL_pred (mem_stripDotL hc)
    simp at this
  | false =>
    cases h2 : isPre (strL "https://") (trimL (toLowerL l)) with
    | true =>
      simp only [h1, h2, if_true, Bool.false_eq_true, if_false]
      apply no_url_pre_of_no_colon
      intro hc
      have := urlHostL_pred (mem_stripDotL hc)
      simp at this
    | false =>
      simp only [h1, h2, Bool.false_eq_true, if_false]
      constructor
      · cases hp : isPre (strL "http://") (stripDotL (trimL (toLowerL l))) with
        | false => rfl
        | true => rw [isPre_stripDotL hp] at h1; cases h1
      · cases hp : isPre (strL "https://") (stripDotL (trimL (toLowerL l))) with
        | false => rfl
        | true => rw [isPre_stripDotL hp] at h2; cases h2

/-! ## Claim theorems -/

/-- C9 (amended): normalization strips only a *single* trailing dot, so it is
idempotent on every input whose normalized form is unchanged by trimming and
by stripping a trailing dot (in particular, whenever that form does not end
in a dot or whitespace); and `"EXAMPLE.COM."` and `"example.com"` both
normalize to `"example.com"`. -/
theorem normalize_idempotent_no_trailing_dot :
    (∀ s : String,
      trimL (normalizeDomain s).data = (normalizeDomain s).data →
      stripDotL (normalizeDomain s).data = (normalizeDomain s).data →
      normalizeDomain (normalizeDomain s) = normalizeDomain s) ∧
    normalizeDomain "EXAMPLE.COM." = "example.com" ∧
    normalizeDomain "example.com" = "example.com" := by
  refine ⟨?_, by decide, by decide⟩
  intro s h1 h2
  have h1' : trimL (normalizeL s.data) = normalizeL s.data := h1
  have h2' : stripDotL (normalizeL s.data) = normalizeL s.data := h2
  have hs : normalizeL (normalizeL s.data) = normalizeL s.data := by
    have hlow : toLowerL (normalizeL s.data) = normalizeL s.data :=
      toLowerL_fix fun c hc => mem_normalizeL_fix hc
    have hp := normalizeL_no_url_pre s.data
    conv_lhs => rw [normalizeL]
    rw [hlow, h1', hp.1, hp.2]
    simp only [Bool.false_eq_true, if_false]
    exact h2'

  exact congrArg String.mk hs

/-- C9 (counterexample to the claim as stated): `"example.com.."` normalizes
to `"example.com."` — itself the output of normalization — which a second
normalization changes to `"example.com"`; normalization is therefore not
idempotent. -/
theorem normalize_not_idempotent_counterexample :
    normalizeDomain "example.com.." = "example.com." ∧
    normalizeDomain (normalizeDomain "example.com..") ≠
      normalizeDomain "example.com.." := by decide

/-- C9 witness: the idempotence theorem applied at `"EXAMPLE.COM."`. -/
theorem normalize_idempotent_no_trailing_dot_witness :
    normalizeDomain (normalizeDomain "EXAMPLE.COM.") = normalizeDomain "EXAMPLE.COM." :=
  normalize_idempotent_no_trailing_dot.1 "EXAMPLE.COM." (by decide) (by decide)

/-- C3: the source's `countDNSLookups` does not implement the one-per-mechanism
counting rule: after `mech.trim()` the patterns `'a '`/`'mx '`/`'ptr '` become
bare substring regexes, so every letter `a` (etc.) in the record is counted.
On `"v=spf1 include:example.com -all"` — one `include` mechanism, so the rule
(spec-side `specLookupCount`) gives 1 — the code computes 3 (the `include:`
plus the `a` of `example` and the `a` of `-all`), and `checkSPF` reports that
value as `lookupCount`. -/
theorem countDNSLookups_overcounts :
    countDNSLookups (strL "v=spf1 include:example.com -all") = 3 ∧
    specLookupCount (strL "v=spf1 include:example.com -all") = 1 ∧
    (checkSPF [["v=spf1 include:example.com -all"]]).lookupCount = some 3 := by decide

/-- C10: an explicitly empty `dkimSelectors` list falls back to the built-in
`COMMON_DKIM_SELECTORS` (26 selectors), exactly as when the option is
omitted, and the analysis result is identical in the two cases. -/
theorem dkim_selectors_empty_fallback :
    effectiveDkimSelectors (some []) = COMMON_DKIM_SELECTORS ∧
    effectiveDkimSelectors none = COMMON_DKIM_SELECTORS ∧
    COMMON_DKIM_SELECTORS.length = 26 ∧
    ∀ (opts : ScanOptions) (ts : String) (s : Settled) (d : String),
      analyzeDomain d { opts with dkimSelectors := some [] } ts s =
      analyzeDomain d { opts with dkimSelectors := none } ts s := by
  refine ⟨rfl, rfl, rfl, ?_⟩
  intro opts ts s d
  rfl

/-- C7: for every found DMARC record, `reportingEnabled` is true iff the
comma-split, trimmed, non-empty-filtered `rua=` or `ruf=` address list is
non-empty; and the record `"v=DMARC1; p=reject; rua=mailto:dmarc@example.com"`
yields policy `reject` with reporting enabled. -/
theorem dmarc_reporting_iff :
    (∀ (txts : List (List String)) (rec : List Char) (rest : List (List Char)),
        dmarcFilter txts = rec :: rest →
        (checkDMARC txts).reportingEnabled =
          some (!(extractReportingAddressesL rec (strL "rua=")).isEmpty
                || !(extractReportingAddressesL rec (strL "ruf=")).isEmpty)) ∧
    (checkDMARC [["v=DMARC1; p=reject; rua=mailto:dmarc@example.com"]]).policy =
      some DMARCPolicy.reject ∧
    (checkDMARC [["v=DMARC1; p=reject; rua=mailto:dmarc@example.com"]]).reportingEnabled =
      some true := by
  refine ⟨?_, by decide, by decide⟩
  intro txts rec rest h
  unfold checkDMARC
  rw [h]

/-- C7 witness: the reporting-iff equation instantiated at the concrete
record. -/
theorem dmarc_reporting_iff_witness :
    (checkDMARC [["v=DMARC1; p=reject; rua=mailto:dmarc@example.com"]]).reportingEnabled =
      some (!(extractReportingAddressesL
                (strL "v=DMARC1; p=reject; rua=mailto:dmarc@example.com")
                (strL "rua=")).isEmpty
            || !(extractReportingAddressesL
                (strL "v=DMARC1; p=reject; rua=mailto:dmarc@example.com")
                (strL "ruf=")).isEmpty) :=
  dmarc_reporting_iff.1 [["v=DMARC1; p=reject; rua=mailto:dmarc@example.com"]]
    (strL "v=DMARC1; p=reject; rua=mailto:dmarc@example.com") [] (by decide)

/-- C8: `checkSPF` extracts the `all` mechanism with its qualifier (defaulting
to `+` when `all` has no leading qualifier), a `+all` mechanism yields a
critical issue, and `"v=spf1 include:_spf.google.com -all"` gives
`found = true`, mechanism `"-all"`, and zero critical issues. -/
theorem spf_all_mechanism :
    (checkSPF [["v=spf1 include:_spf.google.com -all"]]).found = true ∧
    (checkSPF [["v=spf1 include:_spf.google.com -all"]]).mechanism = some "-all" ∧
    (checkSPF [["v=spf1 include:_spf.google.com -all"]]).issues.all
        (fun i => i.severity != Severity.critical) = true ∧
    extractMechanismL (strL "v=spf1 all") = some (strL "+all") ∧
    (∀ (txts : List (List String)) (rec : List Char) (rest : List (List Char)),
        spfFilter txts = rec :: rest →
        extractMechanismL rec = some (strL "+all") →
        (checkSPF txts).issues.any (fun i => i.severity == Severity.critical) = true) := by
  refine ⟨by decide, by decide, by decide, by decide, ?_⟩
  intro txts rec rest hf hm
  unfold checkSPF
  rw [hf]
  simp [hm, List.any_append]

/-- C8 witness: a record whose extracted mechanism is `+all` produces a
critical issue. -/
theorem spf_all_mechanism_witness :
    (checkSPF [["v=spf1 +all"]]).issues.any
      (fun i => i.severity == Severity.critical) = true :=
  spf_all_mechanism.2.2.2.2 [["v=spf1 +all"]] (strL "v=spf1 +all") []
    (by decide) (by decide)

/-- C1 (counterexample to the claim as stated): a rejected WHOIS branch is
converted into a single issue of severity `info`, not `high`
(analyzer.ts line 137), so the "every mechanism, including WHOIS" part of the
claim fails. -/
theorem whois_failed_severity_counterexample :
    (analyzeDomain "example.com" {} "t" errSettled).whois =
      some { found := false,
             issues := [⟨Severity.info, "WHOIS check failed: boom", none⟩] } ∧
    Severity.info ≠ Severity.high := by decide

/-- C6 (counterexample to the claim as stated): with the MTA-STS allow-list
`["*.example.com"]` and the actual MX host `a.b.example.com` — which is *not*
a direct subdomain of `example.com`, so under the claim's wildcard semantics
no entry matches it and one `high` issue should be appended — the code's
`endsWith`-based wildcard accepts it and appends no issue at all. -/
theorem mtasts_wildcard_counterexample :
    (analyzeDomain "example.com" {} "t"
        { errSettled with
          mtaSts := Except.ok
            { found := true, policy := some ⟨["*.example.com"]⟩, issues := [] },
          mx := Except.ok
            { found := true, records := [⟨"a.b.example.com", 10⟩], issues := [] } }).mtaSts =
      some { found := true, policy := some ⟨["*.example.com"]⟩, issues := [] } ∧
    specDirectWildcardMatch (strL "a.b.example.com") "*.example.com" = false := by
  decide

theorem containsSub_of_isPre : ∀ {p l : List Char},
    isPre p l = true → containsSub p l = true := by
  intro p l h
  cases l with
  | nil =>
    cases p with
    | nil => rfl
    | cons _ _ => cases h
  | cons c t =>
    unfold containsSub
    rw [h]
    rfl

/-- C2: a malformed domain short-circuits `analyzeDomain` before any check:
the result has grade `F`, score `0`, an error mentioning "Invalid domain",
no recommendations, all four core mechanism results `found = false` with no
issues, no advanced-check results at all — and the result does not depend on
any check outcome (no check ran).  The embedding is a total function, so no
exception can escape.  The validity predicate itself (`isValidDomain` of
`src/utils`) is modelled from the spec; the short-circuit branch is embedded
from analyzer.ts lines 40–54. -/
theorem invalid_domain_short_circuit :
    ∀ (opts : ScanOptions) (ts : String) (s : Settled) (d : String),
      isValidDomain (normalizeDomain d) = false →
      ((analyzeDomain d opts ts s).grade = Grade.F ∧
       (analyzeDomain d opts ts s).score = 0 ∧
       (analyzeDomain d opts ts s).error =
         some ("Invalid domain format: \"" ++ normalizeDomain d ++ "\"") ∧
       (∀ err, (analyzeDomain d opts ts s).error = some err →
          containsSub (strL "Invalid domain") err.data = true) ∧
       (analyzeDomain d opts ts s).recommendations = [] ∧
       (analyzeDomain d opts ts s).spf = { found := false, issues := [] } ∧
       (analyzeDomain d opts ts s).dkim = { found := false, selectors := [], issues := [] } ∧
       (analyzeDomain d opts ts s).dmarc = { found := false, issues := [] } ∧
       (analyzeDomain d opts ts s).mx = { found := false, records := [], issues := [] } ∧
       (analyzeDomain d opts ts s).bimi = none ∧
       (analyzeDomain d opts ts s).mtaSts = none ∧
       (analyzeDomain d opts ts s).tlsRpt = none ∧
       (analyzeDomain d opts ts s).arc = none ∧
       (analyzeDomain d opts ts s).dnssec = none ∧
       (analyzeDomain d opts ts s).whois = none) ∧
      (∀ s' : Settled, analyzeDomain d opts ts s' = analyzeDomain d opts ts s) := by
  intro opts ts s d hv
  have hr : ∀ s₀ : Settled,
      analyzeDomain d opts ts s₀ = invalidResult (normalizeDomain d) ts := by
    intro s₀
    simp only [analyzeDomain, hv, Bool.not_false]
    exact if_pos trivial
  refine ⟨?_, fun s' => by rw [hr s', hr s]⟩
  rw [hr s]
  refine ⟨rfl, rfl, rfl, ?_, rfl, rfl, rfl, rfl, rfl, rfl, rfl, rfl, rfl, rfl, rfl⟩
  intro err herr
  have he : err = "Invalid domain format: \"" ++ normalizeDomain d ++ "\"" :=
    (Option.some.inj herr).symm
  subst he
  exact containsSub_of_isPre (isPre_append _ (isPre_append _ (by decide)))

/-- C2 witness: the short-circuit theorem applied at `"not a domain"`. -/
theorem invalid_domain_short_circuit_witness :
    (analyzeDomain "not a domain" {} "t" errSettled).grade = Grade.F ∧
    (analyzeDomain "not a domain" {} "t" errSettled).score = 0 ∧
    (analyzeDomain "not a domain" {} "t" errSettled).recommendations = [] := by
  have h := invalid_domain_short_circuit {} "t" errSettled "not a domain" (by decide)
  exact ⟨h.1.1, h.1.2.1, h.1.2.2.2.2.1⟩

theorem gradeOf_iff (x : Int) :
    (gradeOf x = Grade.A ↔ 90 ≤ x) ∧
    (gradeOf x = Grade.B ↔ 75 ≤ x ∧ x < 90) ∧
    (gradeOf x = Grade.C ↔ 50 ≤ x ∧ x < 75) ∧
    (gradeOf x = Grade.D ↔ 25 ≤ x ∧ x < 50) ∧
    (gradeOf x = Grade.F ↔ x < 25) := by
  unfold gradeOf
  split_ifs with h1 h2 h3 h4 <;>
    refine ⟨?_, ?_, ?_, ?_, ?_⟩ <;> constructor <;> intro h <;>
    first
      | omega
      | rfl
      | (exfalso; simp at h)

/-- C4 (spec-modelled: scorer.ts is absent from the sources, so
`calculateGrade` is modelled from §4.4 of the spec): the score is always in
`[0, 100]`; the grade is exactly the fixed-threshold function of the score
(A ≥ 90, B ≥ 75, C ≥ 50, D ≥ 25, F otherwise); and when no mechanism is
found at all the score is 0 and the grade is F. -/
theorem calculateGrade_range_thresholds :
    ∀ (spf : SPFResult) (dkim : DKIMResult) (dmarc : DMARCResult) (mx : MXResult)
      (bimi : Option BIMIResult) (mtaSts : Option MTASTSResult)
      (tlsRpt : Option TLSRPTResult) (arc : Option ARCResult)
      (dnssec : Option DNSSECResult),
      (0 ≤ (calculateGrade spf dkim dmarc mx bimi mtaSts tlsRpt arc dnssec).2 ∧
       (calculateGrade spf dkim dmarc mx bimi mtaSts tlsRpt arc dnssec).2 ≤ 100) ∧
      ((calculateGrade spf dkim dmarc mx bimi mtaSts tlsRpt arc dnssec).1 = Grade.A ↔
        90 ≤ (calculateGrade spf dkim dmarc mx bimi mtaSts tlsRpt arc dnssec).2) ∧
      ((calculateGrade spf dkim dmarc mx bimi mtaSts tlsRpt arc dnssec).1 = Grade.B ↔
        75 ≤ (calculateGrade spf dkim dmarc mx bimi mtaSts tlsRpt arc dnssec).2 ∧
        (calculateGrade spf dkim dmarc mx bimi mtaSts tlsRpt arc dnssec).2 < 90) ∧
      ((calculateGrade spf dkim dmarc mx bimi mtaSts tlsRpt arc dnssec).1 = Grade.C ↔
        50 ≤ (calculateGrade spf dkim dmarc mx bimi mtaSts tlsRpt arc dnssec).2 ∧
        (calculateGrade spf dkim dmarc mx bimi mtaSts tlsRpt arc dnssec).2 < 75) ∧
      ((calculateGrade spf dkim dmarc mx bimi mtaSts tlsRpt arc dnssec).1 = Grade.D ↔
        25 ≤ (calculateGrade spf dkim dmarc mx bimi mtaSts tlsRpt arc dnssec).2 ∧
        (calculateGrade spf dkim dmarc mx bimi mtaSts tlsRpt arc dnssec).2 < 50) ∧
      ((calculateGrade spf dkim dmarc mx bimi mtaSts tlsRpt arc dnssec).1 = Grade.F ↔
        (calculateGrade spf dkim dmarc mx bimi mtaSts tlsRpt arc dnssec).2 < 25) ∧
      (spf.found = false → dkim.found = false → dmarc.found = false →
       mx.found = false →
       (∀ b, bimi = some b → b.found = false) →
       (∀ m, mtaSts = some m → m.found = false) →
       (∀ t, tlsRpt = some t → t.found = false) →
       (∀ a, arc = some a → a.ready = false) →
       (∀ n, dnssec = some n → n.enabled = false) →
       (calculateGrade spf dkim dmarc mx bimi mtaSts tlsRpt arc dnssec).2 = 0 ∧
       (calculateGrade spf dkim dmarc mx bimi mtaSts tlsRpt arc dnssec).1 = Grade.F) := by
  intro spf dkim dmarc mx bimi mtaSts tlsRpt arc dnssec
  have hpair :
      calculateGrade spf dkim dmarc mx bimi mtaSts tlsRpt arc dnssec =
        (gradeOf (min 100 (max 0 (spfScore spf + dkimScore dkim + dmarcScore dmarc
            + mxScore mx + bimiScore bimi + mtaStsScore mtaSts + tlsRptScore tlsRpt
            + arcScore arc + dnssecScore dnssec))),
         min 100 (max 0 (spfScore spf + dkimScore dkim + dmarcScore dmarc
            + mxScore mx + bimiScore bimi + mtaStsScore mtaSts + tlsRptScore tlsRpt
            + arcScore arc + dnssecScore dnssec))) := rfl
  rw [hpair]
  have hiff := gradeOf_iff (min 100 (max 0 (spfScore spf + dkimScore dkim
    + dmarcScore dmarc + mxScore mx + bimiScore bimi + mtaStsScore mtaSts
    + tlsRptScore tlsRpt + arcScore arc + dnssecScore dnssec)))
  refine ⟨⟨le_min (by norm_num) (le_max_left 0 _), min_le_left _ _⟩,
    hiff.1, hiff.2.1, hiff.2.2.1, hiff.2.2.2.1, hiff.2.2.2.2, ?_⟩
  intro h1 h2 h3 h4 h5 h6 h7 h8 h9
  have e1 : spfScore spf = 0 := by simp [spfScore, h1]
  have e2 : dkimScore dkim = 0 := by simp [dkimScore, h2]
  have e3 : dmarcScore dmarc = 0 := by simp [dmarcScore, h3]
  have e4 : mxScore mx = 0 := by simp [mxScore, h4]
  have e5 : bimiScore bimi = 0 := by
    cases bimi with
    | none => rfl
    | some b => simp [bimiScore, h5 b rfl]
  have e6 : mtaStsScore mtaSts = 0 := by
    cases mtaSts with
    | none => rfl
    | some m => simp [mtaStsScore, h6 m rfl]
  have e7 : tlsRptScore tlsRpt = 0 := by
    cases tlsRpt with
    | none => rfl
    | some t => simp [tlsRptScore, h7 t rfl]
  have e8 : arcScore arc = 0 := by
    cases arc with
    | none => rfl
    | some a => simp [arcScore, h8 a rfl]
  have e9 : dnssecScore dnssec = 0 := by
    cases dnssec with
    | none => rfl
    | some n => simp [dnssecScore, h9 n rfl]
  rw [e1, e2, e3, e4, e5, e6, e7, e8, e9]
  exact ⟨by norm_num, by norm_num [gradeOf]⟩

/-- C4 witness: the theorem applied at all-empty inputs (no mechanism
found), giving score 0 and grade F. -/
theorem calculateGrade_range_thresholds_witness :
    (calculateGrade { found := false, issues := [] }
        { found := false, selectors := [], issues := [] }
        { found := false, issues := [] }
        { found := false, records := [], issues := [] }
        none none none none none).2 = 0 ∧
    (calculateGrade { found := false, issues := [] }
        { found := false, selectors := [], issues := [] }
        { found := false, issues := [] }
        { found := false, records := [], issues := [] }
        none none none none none).1 = Grade.F := by
  have h := calculateGrade_range_thresholds { found := false, issues := [] }
    { found := false, selectors := [], issues := [] }
    { found := false, issues := [] }
    { found := false, records := [], issues := [] }
    none none none none none
  exact h.2.2.2.2.2.2 rfl rfl rfl rfl (fun b hb => by cases hb)
    (fun m hm => by cases hm) (fun t ht => by cases ht)
    (fun a ha => by cases ha) (fun n hn => by cases hn)

theorem mtaStsCrossIssues_eq (patterns : List String) :
    ∀ (hosts : List (List Char)) (issues : List Issue),
      mtaStsCrossIssues patterns hosts issues =
        issues ++ (hosts.filter
          (fun h => !(patterns.any (mtaStsPatternMatches h)))).map mtaStsUncoveredIssue := by
  intro hosts
  induction hosts with
  | nil => intro issues; simp [mtaStsCrossIssues]
  | cons h t ih =>
    intro issues
    unfold mtaStsCrossIssues at ih ⊢
    simp only [List.foldl_cons, List.filter_cons]
    cases hm : patterns.any (mtaStsPatternMatches h) with
    | true =>
      rw [if_pos rfl, if_neg (by decide)]
      exact ih issues
    | false =>
      rw [if_neg (by decide), if_pos (by decide)]
      rw [ih (issues ++ [mtaStsUncoveredIssue h]), List.append_assoc]
      rfl

/-- C6 (amended): when MTA-STS is found with a non-empty declared MX
allow-list and the MX lookup succeeded, every actual MX hostname (case-folded,
trailing dot stripped) is checked against the allow-list, where a leading
`*.` entry matches any hostname that equals its remainder or ends with
`"." ++ remainder` (subdomains at any depth, not only direct ones); for each
MX host matched by no entry, exactly one high-severity issue naming that host
is appended to the MTA-STS issue list, in MX order. -/
theorem mtasts_mx_coverage :
    ∀ (opts : ScanOptions) (ts : String) (s : Settled) (d : String)
      (m : MTASTSResult) (mxr : MXResult) (pol : MTASTSPolicy),
      isValidDomain (normalizeDomain d) = true →
      isEnabled opts (·.mtaSts) = true →
      isEnabled opts (·.mx) = true →
      s.mtaSts = Except.ok m → s.mx = Except.ok mxr →
      m.policy = some pol → m.found = true → pol.mx ≠ [] → mxr.found = true →
      (analyzeDomain d opts ts s).mtaSts = some
        { m with issues := m.issues ++ List.map mtaStsUncoveredIssue
                             ((mxr.records.map normMxHost).filter
                               (fun h => !(pol.mx.any (mtaStsPatternMatches h)))) } := by
  intro opts ts s d m mxr pol hv hen1 hen2 hsm hsmx hpol hfound hpmne hmxf
  have hne : pol.mx.isEmpty = false := by
    cases hpm : pol.mx with
    | nil => exact absurd hpm hpmne
    | cons _ _ => rfl
  simp only [analyzeDomain, hv, Bool.not_true]
  rw [if_neg (by simp)]
  simp only [hen1, hen2, if_true, hsm, hsmx, settleWith]
  unfold applyMtaStsCheck
  rw [hpol]
  simp only [hfound, hne, hmxf, Bool.not_false, Bool.and_true, Bool.true_and,
    if_true]
  rw [mtaStsCrossIssues_eq]

/-- C6 witness: an MX host covered by no allow-list entry gets its `high`
issue appended. -/
theorem mtasts_mx_coverage_witness :
    (analyzeDomain "example.com" {} "t"
        { errSettled with
          mtaSts := Except.ok
            { found := true, policy := some ⟨["mail.example.com"]⟩, issues := [] },
          mx := Except.ok
            { found := true, records := [⟨"other.example.org", 10⟩], issues := [] } }).mtaSts =
      some { found := true, policy := some ⟨["mail.example.com"]⟩,
             issues := ([] : List Issue) ++ List.map mtaStsUncoveredIssue
                         ((([⟨"other.example.org", 10⟩] : List MXRecord).map normMxHost).filter
                           (fun h => !((["mail.example.com"] : List String).any
                             (mtaStsPatternMatches h)))) } :=
  mtasts_mx_coverage {} "t"
    { errSettled with
      mtaSts := Except.ok
        { found := true, policy := some ⟨["mail.example.com"]⟩, issues := [] },
      mx := Except.ok
        { found := true, records := [⟨"other.example.org", 10⟩], issues := [] } }
    "example.com"
    { found := true, policy := some ⟨["mail.example.com"]⟩, issues := [] }
    { found := true, records := [⟨"other.example.org", 10⟩], issues := [] }
    ⟨["mail.example.com"]⟩
    (by decide) rfl rfl rfl rfl rfl rfl (by decide) rfl

theorem applyBimiCheck_not_found (b : BIMIResult) (dm : DMARCResult)
    (h : b.found = false) : applyBimiCheck b dm = b := by
  unfold applyBimiCheck
  rw [h]
  rfl

theorem applyMtaStsCheck_no_policy (m : MTASTSResult) (mx : MXResult)
    (h : m.policy = none) : applyMtaStsCheck m mx = m := by
  unfold applyMtaStsCheck
  rw [h]

theorem errEntry_if (name : String) (en : Bool) (o : Except String α) (ph : α) :
    (errEntry name (if en = true then o else Except.ok ph)).toList =
      errSummaryOf name en o := by
  cases en <;> cases o <;> simp [errEntry, errSummaryOf]

theorem filterMap_id_cons (a : Option α) (l : List (Option α)) :
    List.filterMap id (a :: l) = a.toList ++ List.filterMap id l := by
  cases a <;> simp

/-- C1 (amended): every failed (rejected or timed-out) check branch is
converted into a `found = false`/`enabled = false` result carrying exactly
one synthetic issue whose message names the mechanism and the underlying
failure reason — with severity `high` for every mechanism *except WHOIS*,
whose synthetic issue has severity `info` — and the aggregate `error` field
is the `"<Mechanism>: <reason>"` strings of all failed branches (WHOIS
included), joined with `"; "` in dispatch order. -/
theorem failed_branch_results :
    ∀ (opts : ScanOptions) (ts : String) (s : Settled) (d : String),
      isValidDomain (normalizeDomain d) = true →
      (∀ e, isEnabled opts (·.spf) = true → s.spf = Except.error e →
        (analyzeDomain d opts ts s).spf.found = false ∧
        (analyzeDomain d opts ts s).spf.issues =
          [⟨Severity.high, "SPF check failed: " ++ orUnknown e,
            some "Check DNS configuration and try again"⟩]) ∧
      (∀ e, isEnabled opts (·.dkim) = true →
        s.dkim (effectiveDkimSelectors opts.dkimSelectors) = Except.error e →
        (analyzeDomain d opts ts s).dkim.found = false ∧
        (analyzeDomain d opts ts s).dkim.issues =
          [⟨Severity.high, "DKIM check failed: " ++ orUnknown e,
            some "Check DNS configuration and try again"⟩]) ∧
      (∀ e, isEnabled opts (·.dmarc) = true → s.dmarc = Except.error e →
        (analyzeDomain d opts ts s).dmarc.found = false ∧
        (analyzeDomain d opts ts s).dmarc.issues =
          [⟨Severity.high, "DMARC check failed: " ++ orUnknown e,
            some "Check DNS configuration and try again"⟩]) ∧
      (∀ e, isEnabled opts (·.mx) = true → s.mx = Except.error e →
        (analyzeDomain d opts ts s).mx.found = false ∧
        (analyzeDomain d opts ts s).mx.issues =
          [⟨Severity.high, "MX check failed: " ++ orUnknown e,
            some "Check DNS configuration and try again"⟩]) ∧
      (∀ e, isEnabled opts (·.bimi) = true → s.bimi = Except.error e →
        (analyzeDomain d opts ts s).bimi =
          some { found := false,
                 issues := [⟨Severity.high, "BIMI check failed: " ++ orUnknown e,
                   some "Check DNS configuration and try again"⟩] }) ∧
      (∀ e, isEnabled opts (·.mtaSts) = true → s.mtaSts = Except.error e →
        (analyzeDomain d opts ts s).mtaSts =
          some { found := false,
                 issues := [⟨Severity.high, "MTA-STS check failed: " ++ orUnknown e,
                   some "Check DNS configuration and try again"⟩] }) ∧
      (∀ e, isEnabled opts (·.tlsRpt) = true → s.tlsRpt = Except.error e →
        (analyzeDomain d opts ts s).tlsRpt =
          some { found := false,
                 issues := [⟨Severity.high, "TLS-RPT check failed: " ++ orUnknown e,
                   some "Check DNS configuration and try again"⟩] }) ∧
      (∀ e, isEnabled opts (·.dnssec) = true → s.dnssec = Except.error e →
        (analyzeDomain d opts ts s).dnssec =
          some { enabled := false,
                 issues := [⟨Severity.high, "DNSSEC check failed: " ++ orUnknown e,
                   none⟩] }) ∧
      (∀ e, isEnabled opts (·.whois) = true → s.whois = Except.error e →
        (analyzeDomain d opts ts s).whois =
          some { found := false,
                 issues := [⟨Severity.info, "WHOIS check failed: " ++ orUnknown e,
                   none⟩] }) ∧
      ((analyzeDomain d opts ts s).error =
        (let errs : List String :=
          errSummaryOf "SPF" (isEnabled opts (·.spf)) s.spf ++
          (errSummaryOf "DKIM" (isEnabled opts (·.dkim))
              (s.dkim (effectiveDkimSelectors opts.dkimSelectors)) ++
          (errSummaryOf "DMARC" (isEnabled opts (·.dmarc)) s.dmarc ++
          (errSummaryOf "MX" (isEnabled opts (·.mx)) s.mx ++
          (errSummaryOf "BIMI" (isEnabled opts (·.bimi)) s.bimi ++
          (errSummaryOf "MTA-STS" (isEnabled opts (·.mtaSts)) s.mtaSts ++
          (errSummaryOf "TLS-RPT" (isEnabled opts (·.tlsRpt)) s.tlsRpt ++
          (errSummaryOf "DNSSEC" (isEnabled opts (·.dnssec)) s.dnssec ++
           errSummaryOf "WHOIS" (isEnabled opts (·.whois)) s.whois))))))) 
         if errs.isEmpty then none else some (String.intercalate "; " errs))) := by
  intro opts ts s d hv
  refine ⟨?_, ?_, ?_, ?_, ?_, ?_, ?_, ?_, ?_, ?_⟩
  · intro e hen hse
    simp only [analyzeDomain, hv, Bool.not_true]
    rw [if_neg (by simp)]
    simp only [hen, hse, if_true, settleWith, spfFailed, failedIssue]
    exact ⟨trivial, rfl⟩
  · intro e hen hse
    simp only [analyzeDomain, hv, Bool.not_true]
    rw [if_neg (by simp)]
    simp only [hen, hse, if_true, settleWith, dkimFailed, failedIssue]
    exact ⟨trivial, rfl⟩
  · intro e hen hse
    simp only [analyzeDomain, hv, Bool.not_true]
    rw [if_neg (by simp)]
    simp only [hen, hse, if_true, settleWith, dmarcFailed, failedIssue]
    exact ⟨trivial, rfl⟩
  · intro e hen hse
    simp only [analyzeDomain, hv, Bool.not_true]
    rw [if_neg (by simp)]
    simp only [hen, hse, if_true, settleWith, mxFailed, failedIssue]
    exact ⟨trivial, rfl⟩
  · intro e hen hse
    simp only [analyzeDomain, hv, Bool.not_true]
    rw [if_neg (by simp)]
    simp only [hen, hse, if_true, settleWith]
    rw [applyBimiCheck_not_found _ _ rfl]
    exact rfl
  · intro e hen hse
    simp only [analyzeDomain, hv, Bool.not_true]
    rw [if_neg (by simp)]
    simp only [hen, hse, if_true, settleWith]
    rw [applyMtaStsCheck_no_policy _ _ rfl]
    exact rfl
  · intro e hen hse
    simp only [analyzeDomain, hv, Bool.not_true]
    rw [if_neg (by simp)]
    simp only [hen, hse, if_true, settleWith, tlsRptFailed, failedIssue]
    exact rfl
  · intro e hen hse
    simp only [analyzeDomain, hv, Bool.not_true]
    rw [if_neg (by simp)]
    simp only [hen, hse, if_true, settleWith, dnssecFailed]
  · intro e hen hse
    simp only [analyzeDomain, hv, Bool.not_true]
    rw [if_neg (by simp)]
    simp only [hen, hse, if_true, settleWith, whoisFailed]
  · simp only [analyzeDomain, hv, Bool.not_true]
    rw [if_neg (by simp)]
    simp only [branchErrors, filterMap_id_cons, List.filterMap_nil, errEntry_if,
      List.append_nil]

/-- C1 witness: with every branch rejected as `"boom"`, the WHOIS result
carries its single `info` issue and the SPF result its single `high` issue. -/
theorem failed_branch_results_witness :
    (analyzeDomain "example.com" {} "t" errSettled).whois =
      some { found := false,
             issues := [⟨Severity.info, "WHOIS check failed: boom", none⟩] } ∧
    (analyzeDomain "example.com" {} "t" errSettled).spf.issues =
      [⟨Severity.high, "SPF check failed: boom",
        some "Check DNS configuration and try again"⟩] := by
  have h := failed_branch_results {} "t" errSettled "example.com" (by decide)
  exact ⟨h.2.2.2.2.2.2.2.2.1 "boom" rfl rfl, (h.1 "boom" rfl rfl).2⟩

theorem settle_skipped {α : Type} (skf : α → Bool) (failed : String → α) (ph : α)
    (en : Bool) (o : Except String α)
    (hok : okNotSkipped skf o) (hf : ∀ e, skf (failed e) = false) :
    skf (settleWith failed (if en = true then o else Except.ok ph)) = true →
    settleWith failed (if en = true then o else Except.ok ph) = ph := by
  cases en with
  | false => intro _; rfl
  | true =>
    intro hsk
    exfalso
    cases o with
    | ok v =>
      simp only [settleWith, if_true] at hsk
      simp only [okNotSkipped] at hok
      rw [hok] at hsk
      cases hsk
    | error e =>
      simp only [settleWith, if_true] at hsk
      rw [hf e] at hsk
      cases hsk

theorem applyBimiCheck_skipped (b : BIMIResult) (dm : DMARCResult) :
    (applyBimiCheck b dm).skipped = b.skipped := by
  unfold applyBimiCheck
  split_ifs <;> rfl

theorem checkARCReadiness_skipped (a : SPFResult) (b : DKIMResult)
    (c : DMARCResult) : (checkARCReadiness a b c).skipped = false := rfl

theorem applyMtaStsCheck_skipped (m : MTASTSResult) (mx : MXResult) :
    (applyMtaStsCheck m mx).skipped = m.skipped := by
  unfold applyMtaStsCheck
  split
  · split_ifs <;> rfl
  · rfl

/-- C5 (spec-modelled for the scoring/recommendation parts: scorer.ts is
absent from the sources, so the per-mechanism sub-scores and the
recommendation pool are the spec-modelled `…Score`/`recsSource` functions):
in every `analyzeDomain` result whose settled check outcomes are well-formed
(`CheckLike`: fulfilled check values never set `skipped`), a mechanism result
with `skipped = true` has `found = false` (`enabled`/`ready` for
DNSSEC/ARC), an empty issue list, a zero score contribution, and contributes
no recommendation. -/
theorem skipped_contributes_nothing :
    ∀ (opts : ScanOptions) (ts : String) (s : Settled) (d : String),
      isValidDomain (normalizeDomain d) = true → CheckLike s →
      ((analyzeDomain d opts ts s).spf.skipped = true →
        (analyzeDomain d opts ts s).spf.found = false ∧
        (analyzeDomain d opts ts s).spf.issues = [] ∧
        spfScore (analyzeDomain d opts ts s).spf = 0 ∧
        recsSource (analyzeDomain d opts ts s).spf.skipped
          (analyzeDomain d opts ts s).spf.issues = []) ∧
      ((analyzeDomain d opts ts s).dkim.skipped = true →
        (analyzeDomain d opts ts s).dkim.found = false ∧
        (analyzeDomain d opts ts s).dkim.issues = [] ∧
        dkimScore (analyzeDomain d opts ts s).dkim = 0 ∧
        recsSource (analyzeDomain d opts ts s).dkim.skipped
          (analyzeDomain d opts ts s).dkim.issues = []) ∧
      ((analyzeDomain d opts ts s).dmarc.skipped = true →
        (analyzeDomain d opts ts s).dmarc.found = false ∧
        (analyzeDomain d opts ts s).dmarc.issues = [] ∧
        dmarcScore (analyzeDomain d opts ts s).dmarc = 0 ∧
        recsSource (analyzeDomain d opts ts s).dmarc.skipped
          (analyzeDomain d opts ts s).dmarc.issues = []) ∧
      ((analyzeDomain d opts ts s).mx.skipped = true →
        (analyzeDomain d opts ts s).mx.found = false ∧
        (analyzeDomain d opts ts s).mx.issues = [] ∧
        mxScore (analyzeDomain d opts ts s).mx = 0 ∧
        recsSource (analyzeDomain d opts ts s).mx.skipped
          (analyzeDomain d opts ts s).mx.issues = []) ∧
      (∀ b, (analyzeDomain d opts ts s).bimi = some b → b.skipped = true →
        b.found = false ∧ b.issues = [] ∧ bimiScore (some b) = 0 ∧
        recsSource b.skipped b.issues = []) ∧
      (∀ m, (analyzeDomain d opts ts s).mtaSts = some m → m.skipped = true →
        m.found = false ∧ m.issues = [] ∧ mtaStsScore (some m) = 0 ∧
        recsSource m.skipped m.issues = []) ∧
      (∀ t, (analyzeDomain d opts ts s).tlsRpt = some t → t.skipped = true →
        t.found = false ∧ t.issues = [] ∧ tlsRptScore (some t) = 0 ∧
        recsSource t.skipped t.issues = []) ∧
      (∀ a, (analyzeDomain d opts ts s).arc = some a → a.skipped = true →
        a.ready = false ∧ a.issues = [] ∧ arcScore (some a) = 0 ∧
        recsSource a.skipped a.issues = []) ∧
      (∀ n, (analyzeDomain d opts ts s).dnssec = some n → n.skipped = true →
        n.enabled = false ∧ n.issues = [] ∧ dnssecScore (some n) = 0 ∧
        recsSource n.skipped n.issues = []) ∧
      (∀ w, (analyzeDomain d opts ts s).whois = some w → w.skipped = true →
        w.found = false ∧ w.issues = [] ∧ whoisRecs w = []) := by
  intro opts ts s d hv hcl
  have hspf : (analyzeDomain d opts ts s).spf =
      settleWith spfFailed
        (if isEnabled opts (·.spf) = true then s.spf else Except.ok spfSkippedRes) := by
    simp only [analyzeDomain, hv, Bool.not_true]
    rw [if_neg (by simp)]
  have hdkim : (analyzeDomain d opts ts s).dkim =
      settleWith dkimFailed
        (if isEnabled opts (·.dkim) = true then
          s.dkim (effectiveDkimSelectors opts.dkimSelectors)
        else Except.ok dkimSkippedRes) := by
    simp only [analyzeDomain, hv, Bool.not_true]
    rw [if_neg (by simp)]
  have hdmarc : (analyzeDomain d opts ts s).dmarc =
      settleWith dmarcFailed
        (if isEnabled opts (·.dmarc) = true then s.dmarc else Except.ok dmarcSkippedRes) := by
    simp only [analyzeDomain, hv, Bool.not_true]
    rw [if_neg (by simp)]
  have hmx : (analyzeDomain d opts ts s).mx =
      settleWith mxFailed
        (if isEnabled opts (·.mx) = true then s.mx else Except.ok mxSkippedRes) := by
    simp only [analyzeDomain, hv, Bool.not_true]
    rw [if_neg (by simp)]
  have hbimi : (analyzeDomain d opts ts s).bimi =
      some (applyBimiCheck
        (settleWith bimiFailed
          (if isEnabled opts (·.bimi) = true then s.bimi else Except.ok bimiSkippedRes))
        (settleWith dmarcFailed
          (if isEnabled opts (·.dmarc) = true then s.dmarc else Except.ok dmarcSkippedRes))) := by
    simp only [analyzeDomain, hv, Bool.not_true]
    rw [if_neg (by simp)]
  have hmtaSts : (analyzeDomain d opts ts s).mtaSts =
      some (applyMtaStsCheck
        (settleWith mtaStsFailed
          (if isEnabled opts (·.mtaSts) = true then s.mtaSts else Except.ok mtaStsSkippedRes))
        (settleWith mxFailed
          (if isEnabled opts (·.mx) = true then s.mx else Except.ok mxSkippedRes))) := by
    simp only [analyzeDomain, hv, Bool.not_true]
    rw [if_neg (by simp)]
  have htlsRpt : (analyzeDomain d opts ts s).tlsRpt =
      some (settleWith tlsRptFailed
        (if isEnabled opts (·.tlsRpt) = true then s.tlsRpt else Except.ok tlsRptSkippedRes)) := by
    simp only [analyzeDomain, hv, Bool.not_true]
    rw [if_neg (by simp)]
  have harc : (analyzeDomain d opts ts s).arc =
      some (if ((!(isEnabled opts (·.arc)) || !(isEnabled opts (·.spf))
            || !(isEnabled opts (·.dkim))) || !(isEnabled opts (·.dmarc))) = true then
          arcSkippedRes
        else
          checkARCReadiness
            (settleWith spfFailed
              (if isEnabled opts (·.spf) = true then s.spf else Except.ok spfSkippedRes))
            (settleWith dkimFailed
              (if isEnabled opts (·.dkim) = true then
                s.dkim (effectiveDkimSelectors opts.dkimSelectors)
              else Except.ok dkimSkippedRes))
            (settleWith dmarcFailed
              (if isEnabled opts (·.dmarc) = true then s.dmarc
              else Except.ok dmarcSkippedRes))) := by
    simp only [analyzeDomain, hv, Bool.not_true]
    rw [if_neg (by simp)]
  have hdnssec : (analyzeDomain d opts ts s).dnssec =
      some (settleWith dnssecFailed
        (if isEnabled opts (·.dnssec) = true then s.dnssec else Except.ok dnssecSkippedRes)) := by
    simp only [analyzeDomain, hv, Bool.not_true]
    rw [if_neg (by simp)]
  have hwhois : (analyzeDomain d opts ts s).whois =
      some (settleWith whoisFailed
        (if isEnabled opts (·.whois) = true then s.whois else Except.ok whoisSkippedRes)) := by
    simp only [analyzeDomain, hv, Bool.not_true]
    rw [if_neg (by simp)]
  refine ⟨?_, ?_, ?_, ?_, ?_, ?_, ?_, ?_, ?_, ?_⟩
  · rw [hspf]
    intro hsk
    rw [settle_skipped _ spfFailed spfSkippedRes _ _ hcl.1 (fun _ => rfl) hsk]
    exact ⟨rfl, rfl, rfl, rfl⟩
  · rw [hdkim]
    intro hsk
    rw [settle_skipped _ dkimFailed dkimSkippedRes _ _
      (hcl.2.1 (effectiveDkimSelectors opts.dkimSelectors)) (fun _ => rfl) hsk]
    exact ⟨rfl, rfl, rfl, rfl⟩
  · rw [hdmarc]
    intro hsk
    rw [settle_skipped _ dmarcFailed dmarcSkippedRes _ _ hcl.2.2.1 (fun _ => rfl) hsk]
    exact ⟨rfl, rfl, rfl, rfl⟩
  · rw [hmx]
    intro hsk
    rw [settle_skipped _ mxFailed mxSkippedRes _ _ hcl.2.2.2.1 (fun _ => rfl) hsk]
    exact ⟨rfl, rfl, rfl, rfl⟩
  · intro b hb hsk
    rw [hbimi] at hb
    have hbv := (Option.some.inj hb).symm
    subst hbv
    rw [applyBimiCheck_skipped] at hsk
    rw [settle_skipped _ bimiFailed bimiSkippedRes _ _ hcl.2.2.2.2.1
      (fun _ => rfl) hsk]
    rw [applyBimiCheck_not_found _ _ rfl]
    exact ⟨rfl, rfl, rfl, rfl⟩
  · intro m hm hsk
    rw [hmtaSts] at hm
    have hmv := (Option.some.inj hm).symm
    subst hmv
    rw [applyMtaStsCheck_skipped] at hsk
    rw [settle_skipped _ mtaStsFailed mtaStsSkippedRes _ _ hcl.2.2.2.2.2.1
      (fun _ => rfl) hsk]
    rw [applyMtaStsCheck_no_policy _ _ rfl]
    exact ⟨rfl, rfl, rfl, rfl⟩
  · intro t ht hsk
    rw [htlsRpt] at ht
    have htv := (Option.some.inj ht).symm
    subst htv
    rw [settle_skipped _ tlsRptFailed tlsRptSkippedRes _ _ hcl.2.2.2.2.2.2.1
      (fun _ => rfl) hsk]
    exact ⟨rfl, rfl, rfl, rfl⟩
  · intro a ha hsk
    rw [harc] at ha
    have hav := (Option.some.inj ha).symm
    subst hav
    split at hsk
    · next h =>
        rw [if_pos h]
        exact ⟨rfl, rfl, rfl, rfl⟩
    · next h =>
        rw [checkARCReadiness_skipped] at hsk
        exact absurd hsk (by decide)
  · intro n hn hsk
    rw [hdnssec] at hn
    have hnv := (Option.some.inj hn).symm
    subst hnv
    rw [settle_skipped _ dnssecFailed dnssecSkippedRes _ _ hcl.2.2.2.2.2.2.2.1
      (fun _ => rfl) hsk]
    exact ⟨rfl, rfl, rfl, rfl⟩
  · intro w hw hsk
    rw [hwhois] at hw
    have hwv := (Option.some.inj hw).symm
    subst hwv
    rw [settle_skipped _ whoisFailed whoisSkippedRes _ _ hcl.2.2.2.2.2.2.2.2
      (fun _ => rfl) hsk]
    exact ⟨rfl, rfl, rfl⟩

/-- C5 witness: disabling DKIM yields a skipped DKIM result that is not
found, carries no issues, and scores zero. -/
theorem skipped_contributes_nothing_witness :
    (analyzeDomain "example.com" { checks := some { dkim := some false } } "t"
      errSettled).dkim.found = false ∧
    (analyzeDomain "example.com" { checks := some { dkim := some false } } "t"
      errSettled).dkim.issues = [] ∧
    dkimScore (analyzeDomain "example.com" { checks := some { dkim := some false } }
      "t" errSettled).dkim = 0 := by
  have h := skipped_contributes_nothing { checks := some { dkim := some false } }
    "t" errSettled "example.com" (by decide)
    ⟨trivial, fun _ => trivial, trivial, trivial, trivial, trivial, trivial,
     trivial, trivial⟩
  have h2 := h.2.1 (by decide)
  exact ⟨h2.1, h2.2.1, h2.2.2.1⟩

end DNSVet
